import Mathlib

/-!
Verification of the tool-triggered form orchestration subsystem of the
LibreChat fork (client components `MCPToolDetector`, the per-tool output
parsers in `MCP_TOOL_CONFIGS`, the submit/cancel handlers, and the
two-phase upload in `AddCrawlConfigForm.handleSubmit`).

The TypeScript code is shallowly embedded:
* JavaScript runtime values are the inductive `Js` (with an explicit
  `undefined` constructor for `undefined`); property access that throws on
  nullish bases is modelled with `Except Unit`.
* `JSON.parse` is a JavaScript builtin external to the repository; it is
  modelled abstractly as a parameter `parse : String → Option Js`
  (`none` models a thrown `SyntaxError`).  Likewise `JSON.stringify`,
  `Date#toLocaleDateString` and `Date#toLocaleString` are abstract
  parameters, since their output is environment dependent.
* React state setters are modelled as pure state transformers; the
  effect/handler bodies are straight-line functions that additionally
  emit a trace of primitive actions (store writes, disposed messages,
  lock updates) in source order.
-/

set_option autoImplicit false

namespace MCPForms

/-- JavaScript runtime values as produced/consumed by the detector and
its parsers.  `undefined` models `undefined`; numbers are modelled as
integers (no claim depends on float arithmetic). -/
inductive Js where
  | undefined : Js
  | null : Js
  | bool : Bool → Js
  | num : Int → Js
  | str : String → Js
  | arr : List Js → Js
  | obj : List (String × Js) → Js

/-- JavaScript truthiness (`!!v`). `[]` and `\x7b\x7d` are truthy. -/
def Js.truthy : Js → Bool
  | .undefined => false
  | .null => false
  | .bool b => b
  | .num n => decide (n ≠ 0)
  | .str s => decide (s ≠ "")
  | .arr _ => true
  | .obj _ => true

/-- First value bound to key `k` in an association list (JS object). -/
def jsLookup (kvs : List (String × Js)) (k : String) : Option Js :=
  (kvs.find? (fun kv => kv.1 = k)).map Prod.snd

/-- Optional-chaining property access `v?.k`: `undefined` on a nullish
base, the bound value (or `undefined`) on an object, `undefined` on
other values.  (Plain `v.k` differs only by throwing on nullish bases,
see `Js.get`.) -/
def jsGetOpt (v : Js) (k : String) : Js :=
  match v with
  | .undefined => .undefined
  | .null => .undefined
  | .obj kvs => (jsLookup kvs k).getD .undefined
  | _ => .undefined

/-- Plain property access `v.k`: throws (`Except.error`) on nullish
bases, otherwise as `jsGetOpt`.  Properties of the builtin prototypes of
primitives are not modelled (none is read by the embedded code). -/
def Js.get (v : Js) (k : String) : Except Unit Js :=
  match v with
  | .undefined => .error ()
  | .null => .error ()
  | v => .ok (jsGetOpt v k)

/-- JavaScript `a || b`. -/
def jsOrElse (a b : Js) : Js :=
  if a.truthy then a else b

/-- JavaScript strict equality `===` restricted to the cases the code
exercises: primitives compare by value; two (structurally) distinct
object/array references are never `===`, which we model by returning
`false` on all non-primitive pairs. -/
def jsEq : Js → Js → Bool
  | .undefined, .undefined => true
  | .null, .null => true
  | .bool a, .bool b => a = b
  | .num a, .num b => a = b
  | .str a, .str b => a = b
  | _, _ => false

/-- String coercion as used by template literals (`String(v)`).  Arrays
are approximated by `""` (JS joins the elements); no embedded string
ever coerces an array or nested object. -/
def jsToStr : Js → String
  | .undefined => "undefined"
  | .null => "null"
  | .bool true => "true"
  | .bool false => "false"
  | .num n => toString n
  | .str s => s
  | .arr _ => ""
  | .obj _ => "[object Object]"

/-- Property-key coercion for computed member assignment `o[k] = v`. -/
def jsPropKey (v : Js) : String := jsToStr v

/-- `o[k] = v` on a JS object: overwrite in place if the key exists
(keeping insertion order), otherwise append. -/
def objSet (kvs : List (String × Js)) (k : String) (v : Js) : List (String × Js) :=
  if kvs.any (fun kv => kv.1 = k) then
    kvs.map (fun kv => if kv.1 = k then (k, v) else kv)
  else
    kvs ++ [(k, v)]

/-- Spread-and-extend `\x7b...base, k₁: v₁, ...\x7d`.  Spreading a
non-object contributes no enumerable properties (the embedded code only
ever spreads objects). -/
def jsSpread (base : Js) (extra : List (String × Js)) : Js :=
  let kvs := match base with
    | .obj kvs => kvs
    | _ => []
  .obj (extra.foldl (fun acc kv => objSet acc kv.1 kv.2) kvs)

/-- `xs?.find(e => e.k === target)` on an option-list value: `undefined`
when the base is nullish or no element matches.  List elements produced
by the extractors are always objects, so the element access `e.k` never
throws; it is modelled with `jsGetOpt`. -/
def jsFindBy (v : Js) (k : String) (target : Js) : Js :=
  match v with
  | .arr xs => (xs.find? (fun e => jsEq (jsGetOpt e k) target)).getD .undefined
  | _ => .undefined

/-- `v?.length` for the audience count: array length, string length,
otherwise `undefined`. -/
def jsLength : Js → Js
  | .arr xs => .num xs.length
  | .str s => .num s.length
  | _ => .undefined

/-- Interpolation of `Math.floor(v)`: identity on (integer) numbers,
`NaN` otherwise. -/
def mathFloorStr (v : Js) : String :=
  match v with
  | .num n => toString n
  | _ => "NaN"

/-- `JSON.parse` applied to a JS value: parses the string payload; the
code only reaches this with string values (guarded by truthiness), so
non-string coercion is modelled as a parse failure. -/
def jsParse (parse : String → Option Js) : Js → Option Js
  | .str s => parse s
  | _ => none

/-- First `n` characters of a string (`s.substring(0, n)`). -/
def strTake (s : String) (n : Nat) : String :=
  ⟨s.toList.take n⟩

/-! ### Substring scanning (JS `String#includes`, `indexOf`, `split`) -/

/-- Does `pat` occur as a contiguous run inside `l`? -/
def containsSubAux (pat : List Char) : List Char → Bool
  | [] => pat.isEmpty
  | c :: cs => pat.isPrefixOf (c :: cs) || containsSubAux pat cs

/-- JS `s.includes(pat)`. -/
def containsSub (s pat : String) : Bool :=
  containsSubAux pat.toList s.toList

/-- Index of the first occurrence of `pat` in `l` (JS `indexOf`). -/
def idxOfSubAux (pat : List Char) : List Char → Option Nat
  | [] => if pat.isEmpty then some 0 else none
  | c :: cs =>
    if pat.isPrefixOf (c :: cs) then some 0
    else (idxOfSubAux pat cs).map Nat.succ

/-- JS `s.indexOf(pat)` returning `none` for `-1`. -/
def idxOfSub (s pat : String) : Option Nat :=
  idxOfSubAux pat.toList s.toList

/-! ### Request-identity resolution (the `requestId` useMemo)

The detector scans the raw tool output with the regular expression
`request_id::([a-f0-9-]+)` and keeps the first captured token. -/

/-- Character class `[a-f0-9-]` of the request-id token. -/
def isHexDash (c : Char) : Bool :=
  c = '-' || ('a' ≤ c && c ≤ 'f') || ('0' ≤ c && c ≤ '9')

/-- Greedy run of `[a-f0-9-]` characters (the `+` of the regex). -/
def takeClass : List Char → List Char
  | [] => []
  | c :: cs => if isHexDash c then c :: takeClass cs else []

/-- The literal marker `request_id::` of the regex. -/
def requestIdMarker : List Char := "request_id::".toList

/-- Leftmost match of `request_id::([a-f0-9-]+)`: at each position, the
literal marker must be followed by at least one class character; the
capture is the maximal class run. -/
def findRequestId : List Char → Option (List Char)
  | [] => none
  | c :: cs =>
    if requestIdMarker.isPrefixOf (c :: cs) then
      let tok := takeClass ((c :: cs).drop requestIdMarker.length)
      if tok.isEmpty then findRequestId cs else some tok
    else findRequestId cs

/-- The `requestId` useMemo: `null` without output, otherwise the first
captured request-id token. -/
def extractRequestId (output : Option String) : Option String :=
  match output with
  | none => none
  | some o =>
    if o = "" then none
    else (findRequestId o.toList).map (fun cs => ⟨cs⟩)

/-- JS falsy-string defaulting `s || d` for the id components
(`conversationId || 'no-conv'` etc.); the empty string models a
nullish/empty falsy value. -/
def strOr (s d : String) : String :=
  if s = "" then d else s

/-- The `formId` useMemo: `"{conversationId}-{requestId}"` when a
request id was captured, else
`"{conversationId}-{messageId}-{function_name}"`. -/
def formIdOf (requestId : Option String) (conversationId messageId functionName : String) : String :=
  match requestId with
  | some rid => strOr conversationId "no-conv" ++ "-" ++ rid
  | none => strOr conversationId "no-conv" ++ "-" ++ strOr messageId "no-msg" ++ "-" ++ functionName

/-! ### MCP tool-name parsing -/

/-- `Constants.mcp_delimiter` from `librechat-data-provider` (the same
literal appears inline in the upload tool ids
`create_crawl_config_mcp_$\x7bserverName\x7d`). -/
def mcpDelimiter : String := "_mcp_"

/-- JS `s.split("_mcp_")` (non-overlapping, left to right).  The fuel
argument, initialised to the string length, only makes the recursion
structural: every step consumes at least one character, so the
fuel-exhausted case is unreachable. -/
def splitOnDelimAux : Nat → List Char → List Char → List (List Char)
  | _, acc, [] => [acc.reverse]
  | 0, acc, l => [acc.reverse ++ l]
  | fuel + 1, acc, c :: cs =>
    if mcpDelimiter.toList.isPrefixOf (c :: cs) then
      acc.reverse :: splitOnDelimAux fuel [] ((c :: cs).drop mcpDelimiter.toList.length)
    else
      splitOnDelimAux fuel (c :: acc) cs

/-- All components of `toolName.split(Constants.mcp_delimiter)`. -/
def splitOnDelim (s : String) : List String :=
  (splitOnDelimAux s.toList.length [] s.toList).map (fun cs => ⟨cs⟩)

/-- The `function_name / serverName / isMCPToolCall` useMemo: a missing
or non-string `toolCall.name` yields empty identifiers; a name without
the delimiter is a local (non-MCP) tool. -/
def parseToolName (name : Option String) : String × String × Bool :=
  match name with
  | none => ("", "", false)
  | some n =>
    if containsSub n mcpDelimiter then
      let parts := splitOnDelim n
      (parts.getD 0 "", parts.getD 1 "", true)
    else
      (n, "", false)

/-! ### Output parsers (`MCP_TOOL_CONFIGS[*].extractOptions`)

Each extractor takes the abstract `JSON.parse` and the raw output
string and returns the JS object the source builds; the surrounding
`try/catch` is modelled by running the body in `Except Unit` and
substituting the form type's empty bundle on error. -/

/-- Run a `try` body, substituting a default on a thrown exception. -/
def tryCatch {α : Type} (body : Except Unit α) (fallback : α) : α :=
  match body with
  | .ok a => a
  | .error _ => fallback

/-- The shared TextContent unwrap used by the crawl, outreach,
site-keyword and keyword-cluster extractors:

    try \x7b
      const outputArray = JSON.parse(output);
      if (Array.isArray(outputArray) && outputArray.length > 0 && outputArray[0].text) \x7b
        parsedData = JSON.parse(outputArray[0].text);
      \x7d else \x7b parsedData = outputArray; \x7d
    \x7d catch \x7b parsedData = JSON.parse(output); \x7d

The catch re-parses `output`; since `JSON.parse` is deterministic this
yields `outputArray` again when the original parse succeeded, and
rethrows to the outer catch when it did not. -/
def textContentUnwrap (parse : String → Option Js) (output : String) : Except Unit Js :=
  match parse output with
  | none => .error ()
  | some oa =>
    .ok (match oa with
      | .arr (e0 :: _) =>
        match e0.get "text" with
        | .error _ => oa
        | .ok t =>
          if t.truthy then (jsParse parse t).getD oa else oa
      | _ => oa)

/-- `(v || []).map(f)`: maps over an array, maps the empty array for a
falsy value, and throws for a truthy non-array (`.map` is not a
function there). -/
def jsMapOrEmpty (f : Js → Except Unit Js) (v : Js) : Except Unit (List Js) :=
  match jsOrElse v (.arr []) with
  | .arr xs => xs.mapM f
  | _ => .error ()

/-- Website record of the crawl extractor:
`\x7bid: ws.id, name: ws.name || ws.url, url: ws.url\x7d`. -/
def crawlWebsiteEntry (ws : Js) : Except Unit Js := do
  let id ← ws.get "id"
  let name ← ws.get "name"
  let url ← ws.get "url"
  .ok (.obj [("id", id), ("name", jsOrElse name url), ("url", url)])

/-- Crawl-config record of the crawl extractor. -/
def crawlConfigEntry (c : Js) : Except Unit Js := do
  let id ← c.get "id"
  let name ← c.get "name"
  let description ← c.get "description"
  let createdAt ← c.get "created_at"
  .ok (.obj [("id", id), ("name", name), ("description", description), ("created_at", createdAt)])

/-- Folding the `prefilled_params` array of `\x7bkey, value\x7d` pairs
into a plain object. -/
def buildPrefilled (params : List Js) : Except Unit (List (String × Js)) :=
  params.foldlM
    (fun acc p => do
      let k ← p.get "key"
      let v ← p.get "value"
      .ok (objSet acc (jsPropKey k) v))
    []

/-- `prefilled_params` handling shared by the crawl and
add-crawl-config extractors: only an array value is folded. -/
def prefilledOf (parsedData : Js) : Except Unit (List (String × Js)) := do
  let raw ← parsedData.get "prefilled_params"
  match raw with
  | .arr ps => buildPrefilled ps
  | _ => .ok []

/-- The `render_crawl_form` empty bundle returned by its catch. -/
def emptyCrawlBundle : Js :=
  .obj [("websites", .arr []), ("crawlConfigs", .arr []), ("prefilledParams", .obj [])]

/-- `render_crawl_form.extractOptions` body (before the outer catch). -/
def crawlExtractCore (parse : String → Option Js) (output : String) : Except Unit Js := do
  let parsedData ← textContentUnwrap parse output
  let wsRaw ← parsedData.get "websites"
  let websites ← jsMapOrEmpty crawlWebsiteEntry wsRaw
  let ccRaw ← parsedData.get "crawl_configs"
  let crawlConfigs ← jsMapOrEmpty crawlConfigEntry ccRaw
  let prefilled ← prefilledOf parsedData
  .ok (.obj [("websites", .arr websites), ("crawlConfigs", .arr crawlConfigs),
             ("prefilledParams", .obj prefilled)])

/-- `render_crawl_form.extractOptions`. -/
def crawlExtractOptions (parse : String → Option Js) (output : String) : Js :=
  tryCatch (crawlExtractCore parse output) emptyCrawlBundle

/-- The inner unwrap of `render_add_crawl_config_form.extractOptions`:
its catch substitutes `\x7b\x7d` instead of re-parsing, and the
element access uses optional chaining (`outputArray[0]?.text`). -/
def addCrawlConfigUnwrap (parse : String → Option Js) (output : String) : Js :=
  match parse output with
  | none => .obj []
  | some oa =>
    match oa with
    | .arr xs =>
      let t := jsGetOpt (xs.getD 0 .undefined) "text"
      if t.truthy then (jsParse parse t).getD (.obj []) else oa
    | _ => oa

/-- The `render_add_crawl_config_form` empty bundle. -/
def emptyAddCrawlConfigBundle : Js := .obj [("prefilledParams", .obj [])]

/-- `render_add_crawl_config_form.extractOptions`. -/
def addCrawlConfigExtractOptions (parse : String → Option Js) (output : String) : Js :=
  tryCatch
    (do
      let parsedData := addCrawlConfigUnwrap parse output
      let prefilled ← prefilledOf parsedData
      Except.ok (Js.obj [("prefilledParams", .obj prefilled)]))
    emptyAddCrawlConfigBundle

/-- Replace every maximal run of whitespace by `_`
(`label.replace(/\s+/g, '_')`); the flag tracks whether the previous
character was whitespace. -/
def squashWsAux : Bool → List Char → List Char
  | _, [] => []
  | prevWs, c :: cs =>
    if c.isWhitespace then
      if prevWs then squashWsAux true cs else '_' :: squashWsAux true cs
    else
      c :: squashWsAux false cs

/-- Field id derivation `field.label.toLowerCase().replace(/\s+/g, '_')`. -/
def fieldIdOf (label : String) : String :=
  ⟨squashWsAux false label.toLower.toList⟩

/-- One entry of the custom form's `form_fields` map; `label` must be a
string (`.toLowerCase` throws otherwise). -/
def customFieldEntry (field : Js) : Except Unit Js := do
  let label ← field.get "label"
  let ty ← field.get "type"
  let labelStr ← (match label with
    | .str s => Except.ok s
    | _ => Except.error ())
  let base := [("label", label), ("type", ty), ("id", Js.str (fieldIdOf labelStr))]
  if jsEq ty (.str "selector") then do
    let opts ← field.get "options"
    let dflt ← field.get "default"
    let base := base ++ [("options", jsOrElse opts (.arr []))]
    .ok (.obj (if dflt.truthy then base ++ [("default", dflt)] else base))
  else
    .ok (.obj base)

/-- Strip the trailing note section: `indexOf('\n\nNOTE:')`, truncating
only for a strictly positive index. -/
def stripNote (s : String) : String :=
  match idxOfSub s "\n\nNOTE:" with
  | some i => if 0 < i then ⟨s.toList.take i⟩ else s
  | none => s

/-- The `render_custom_form` decode chain: TextContent array (without
re-parse on inner failure), else plain text with the NOTE suffix
stripped and trimmed; a falsy `parsedData` from the array path also
falls through to the plain-text path. -/
def customParsedData (parse : String → Option Js) (output : String) : Except Unit Js :=
  let step : Js ⊕ Js :=
    match parse output with
    | none => .inr (.str output)
    | some oa =>
      match oa with
      | .arr (e0 :: _) =>
        match e0.get "text" with
        | .error _ => .inr (.str output)
        | .ok t => if t.truthy then .inr t else .inl oa
      | _ => .inl oa
  match step with
  | .inl pd =>
    if pd.truthy then .ok pd
    else
      match parse ((stripNote output).trim) with
      | some v => .ok v
      | none => .error ()
  | .inr jsonString =>
    match jsonString with
    | .str s =>
      match parse ((stripNote s).trim) with
      | some v => .ok v
      | none => .error ()
    | _ => .error ()

/-- The `render_custom_form` empty bundle. -/
def emptyCustomBundle : Js :=
  .obj [("formFields", .arr []), ("requestId", .null), ("functionToolName", .null)]

/-- `render_custom_form.extractOptions` body. -/
def customExtractCore (parse : String → Option Js) (output : String) : Except Unit Js := do
  let parsedData ← customParsedData parse output
  let ffRaw ← parsedData.get "form_fields"
  let formFields ← jsMapOrEmpty customFieldEntry ffRaw
  let requestId ← parsedData.get "request_id"
  let functionToolName ← parsedData.get "function_tool_name"
  let submitInstructions ← parsedData.get "submit_instructions"
  .ok (.obj [("formFields", .arr formFields), ("requestId", requestId),
             ("functionToolName", functionToolName),
             ("submitInstructions", jsOrElse submitInstructions .undefined)])

/-- `render_custom_form.extractOptions`. -/
def customExtractOptions (parse : String → Option Js) (output : String) : Js :=
  tryCatch (customExtractCore parse output) emptyCustomBundle

/-- One flattened sender of the outreach extractor, carrying the parent
group's company name and id down onto the sender. -/
def outreachSenderEntry (group sender : Js) : Except Unit Js := do
  let id ← sender.get "id"
  let name ← sender.get "name"
  let occupation ← sender.get "occupation"
  let companyName := jsOrElse (jsGetOpt (jsGetOpt group "company_details") "name") (.str "Unknown Company")
  let senderGroupId ← group.get "sender_group_id"
  .ok (.obj [("id", id), ("name", name), ("occupation", occupation),
             ("company_name", companyName), ("sender_group_id", jsOrElse senderGroupId (.str ""))])

/-- The `sender_group_list` flatMap of the outreach extractor. -/
def outreachSenders (groups : Js) : Except Unit (List Js) := do
  let groupLists ← jsMapOrEmpty
    (fun group => do
      let sendersRaw ← group.get "senders"
      let flat ← jsMapOrEmpty (outreachSenderEntry group) sendersRaw
      .ok (.arr flat))
    groups
  .ok (groupLists.foldr
    (fun g acc => match g with
      | .arr xs => xs ++ acc
      | _ => acc)
    [])

/-- Upload-list record of the outreach extractor. -/
def outreachListEntry (l : Js) : Except Unit Js := do
  let id ← l.get "id"
  let listName ← l.get "list_name"
  let leads ← l.get "leads_count"
  .ok (.obj [("id", id), ("list_name", listName), ("leads_count", jsOrElse leads (.num 0))])

/-- Campaign record of the outreach extractor. -/
def outreachCampaignEntry (c : Js) : Except Unit Js := do
  let id ← c.get "id"
  let name ← c.get "name"
  let goal ← c.get "campaign_goal"
  let description ← c.get "description"
  .ok (.obj [("id", id), ("name", name), ("campaign_goal", goal), ("description", description)])

/-- Email-template record of the outreach extractor. -/
def outreachTemplateEntry (t : Js) : Except Unit Js := do
  let id ← t.get "id"
  let name ← t.get "name"
  let subject ← t.get "subject_line"
  let body ← t.get "body"
  .ok (.obj [("id", id), ("name", name), ("subject_line", subject), ("body", body)])

/-- ICP record of the outreach extractor. -/
def outreachIcpEntry (icp : Js) : Except Unit Js := do
  let elementId ← icp.get "element_id"
  let title ← icp.get "title"
  let manualQuery ← icp.get "manual_query"
  let targetIndustry ← icp.get "target_industry"
  let targetLevel ← icp.get "target_level"
  let targetDept ← icp.get "target_dept"
  .ok (.obj [("element_id", elementId), ("title", title), ("manual_query", manualQuery),
             ("target_industry", targetIndustry), ("target_level", targetLevel),
             ("target_dept", targetDept)])

/-- The `render_outreach_generate_form` empty bundle. -/
def emptyOutreachBundle : Js :=
  .obj [("senders", .arr []), ("lists", .arr []), ("campaigns", .arr []),
        ("templates", .arr []), ("icps", .arr [])]

/-- `render_outreach_generate_form.extractOptions` body. -/
def outreachExtractCore (parse : String → Option Js) (output : String) : Except Unit Js := do
  let parsedData ← textContentUnwrap parse output
  let groupsRaw ← parsedData.get "sender_group_list"
  let senders ← outreachSenders (jsOrElse groupsRaw (.arr []))
  let listsRaw ← parsedData.get "upload_list_list"
  let lists ← jsMapOrEmpty outreachListEntry listsRaw
  let campaignsRaw ← parsedData.get "campaign_list"
  let campaigns ← jsMapOrEmpty outreachCampaignEntry campaignsRaw
  let templatesRaw ← parsedData.get "email_template_list"
  let templates ← jsMapOrEmpty outreachTemplateEntry templatesRaw
  let icpsRaw ← parsedData.get "icp_list"
  let icps ← jsMapOrEmpty outreachIcpEntry icpsRaw
  .ok (.obj [("senders", .arr senders), ("lists", .arr lists), ("campaigns", .arr campaigns),
             ("templates", .arr templates), ("icps", .arr icps)])

/-- `render_outreach_generate_form.extractOptions`. -/
def outreachExtractOptions (parse : String → Option Js) (output : String) : Js :=
  tryCatch (outreachExtractCore parse output) emptyOutreachBundle

/-- Service-account record of the site-keyword extractor. -/
def serviceAccountEntry (sa : Js) : Except Unit Js := do
  let id ← sa.get "id"
  let email ← sa.get "email"
  .ok (.obj [("id", id), ("email", email)])

/-- Website record of the site-keyword and keyword-cluster extractors
(`\x7bid, name, url\x7d` without the crawl extractor's name/url default). -/
def siteWebsiteEntry (ws : Js) : Except Unit Js := do
  let id ← ws.get "id"
  let name ← ws.get "name"
  let url ← ws.get "url"
  .ok (.obj [("id", id), ("name", name), ("url", url)])

/-- The `render_load_site_keyword_data_form` empty bundle. -/
def emptySiteKeywordBundle : Js :=
  .obj [("serviceAccounts", .arr []), ("websites", .arr []), ("keywordSources", .arr [])]

/-- `render_load_site_keyword_data_form.extractOptions` body; the
keyword sources default to `['gsc', 'dataforseo']`. -/
def siteKeywordExtractCore (parse : String → Option Js) (output : String) : Except Unit Js := do
  let parsedData ← textContentUnwrap parse output
  let saRaw ← parsedData.get "service_accounts_list"
  let serviceAccounts ← jsMapOrEmpty serviceAccountEntry saRaw
  let wsRaw ← parsedData.get "websites_list"
  let websites ← jsMapOrEmpty siteWebsiteEntry wsRaw
  let ksRaw ← parsedData.get "keywords_sources_list"
  let keywordSources := jsOrElse ksRaw (.arr [.str "gsc", .str "dataforseo"])
  .ok (.obj [("serviceAccounts", .arr serviceAccounts), ("websites", .arr websites),
             ("keywordSources", keywordSources)])

/-- `render_load_site_keyword_data_form.extractOptions`. -/
def siteKeywordExtractOptions (parse : String → Option Js) (output : String) : Js :=
  tryCatch (siteKeywordExtractCore parse output) emptySiteKeywordBundle

/-- The `render_load_keyword_cluster_form` empty bundle. -/
def emptyKeywordClusterBundle : Js := .obj [("websites", .arr [])]

/-- `render_load_keyword_cluster_form.extractOptions`. -/
def keywordClusterExtractOptions (parse : String → Option Js) (output : String) : Js :=
  tryCatch
    (do
      let parsedData ← textContentUnwrap parse output
      let wsRaw ← parsedData.get "websites_list"
      let websites ← jsMapOrEmpty siteWebsiteEntry wsRaw
      Except.ok (Js.obj [("websites", .arr websites)]))
    emptyKeywordClusterBundle

/-- Strip a leading ```` ```markdown ```` fence and a trailing
```` ``` ```` fence (the two anchored `replace` calls). -/
def stripFence (s : String) : String :=
  let opening := "```markdown\n".toList
  let l := s.toList
  let l := if opening.isPrefixOf l then l.drop opening.length else l
  let closing := "\n```".toList
  let l := if closing.reverse.isPrefixOf l.reverse then l.take (l.length - closing.length) else l
  ⟨l⟩

/-- Lazy regex fallback ```` /```markdown\n([\s\S]+?)\n```/ ````:
content between the first fence opening and the earliest following
close fence, at least one character long. -/
def markdownFallback (s : String) : Option String := do
  let i ← idxOfSub s "```markdown\n"
  let afterOpen := s.toList.drop (i + "```markdown\n".length)
  let j ← idxOfSubAux "\n```".toList (afterOpen.drop 1)
  pure ⟨afterOpen.take (j + 1)⟩

/-- The doubly nested markdown unwrap of `email_sme_questions_form`:
`[{"text": "[{\"output\": \"```markdown...```\"}]"}]`; on any throw the
inner catch recovers via the regex fallback, and a non-matching (but
non-throwing) shape leaves the content empty. -/
def emailSmeContent (parse : String → Option Js) (output : String) : String :=
  let fallback := (markdownFallback output).getD ""
  match parse output with
  | none => fallback
  | some outer =>
    match outer with
    | .arr (e0 :: _) =>
      match e0.get "text" with
      | .error _ => fallback
      | .ok t =>
        if t.truthy then
          match jsParse parse t with
          | none => fallback
          | some inner =>
            match inner with
            | .arr (i0 :: _) =>
              match i0.get "output" with
              | .error _ => fallback
              | .ok o =>
                if o.truthy then
                  match o with
                  | .str s => stripFence s
                  | _ => fallback
                else ""
            | _ => ""
        else ""
    | _ => ""

/-- `email_sme_questions_form.extractOptions`: fixed recipient/content
fields around the unwrapped markdown. -/
def emailSmeExtractOptions (parse : String → Option Js) (output : String) : Js :=
  .obj [("formFields", .arr [
      .obj [("label", .str "Recipient Email"), ("type", .str "email"),
            ("id", .str "recipient_email"), ("default", .str "")],
      .obj [("label", .str "Email Content"), ("type", .str "textarea"),
            ("id", .str "email_content"), ("default", .str (emailSmeContent parse output)),
            ("rows", .num 15)]]),
    ("requestId", .null),
    ("functionToolName", .str "email_sme_questions_form"),
    ("submitInstructions", .str "After you submit this form, the brevo_send_email tool will be used to send the email content to the recipient you specified.")]

/-! ### The validity gate (`hasValidOptions`) -/

/-- The detector's validity check on an extracted bundle:

    Array.isArray(options) ? options.length > 0
      : options && typeof options === 'object'
        && Object.keys(options).length > 0
        && Object.values(options).some(val => Array.isArray(val) ? val.length > 0 : !!val)

Note that for an object-valued property `val`, `!!val` is `true` even
when `val` is the empty object. -/
def hasValidOptions (options : Js) : Bool :=
  match options with
  | .arr xs => decide (0 < xs.length)
  | .obj kvs =>
    decide (0 < kvs.length) &&
      kvs.any (fun kv => match kv.2 with
        | .arr xs => decide (0 < xs.length)
        | v => v.truthy)
  | _ => false

/-! ### Tool configuration registry and detector state -/

/-- One entry of `MCP_TOOL_CONFIGS` with the abstract `JSON.parse`
already supplied to its extractor. -/
structure ToolConfig where
  triggerForm : Bool
  formType : String
  extractOptions : String → Js

/-- The static `MCP_TOOL_CONFIGS` lookup (`MCP_TOOL_CONFIGS[name] || null`). -/
def mcpToolConfigs (parse : String → Option Js) (name : String) : Option ToolConfig :=
  if name = "render_crawl_form" then
    some ⟨true, "crawl", crawlExtractOptions parse⟩
  else if name = "render_add_crawl_config_form" then
    some ⟨true, "add_crawl_config", addCrawlConfigExtractOptions parse⟩
  else if name = "render_custom_form" then
    some ⟨true, "custom", customExtractOptions parse⟩
  else if name = "render_outreach_generate_form" then
    some ⟨true, "outreach", outreachExtractOptions parse⟩
  else if name = "email_sme_questions_form" then
    some ⟨true, "custom", emailSmeExtractOptions parse⟩
  else if name = "render_load_site_keyword_data_form" then
    some ⟨true, "site_keyword", siteKeywordExtractOptions parse⟩
  else if name = "render_load_keyword_cluster_form" then
    some ⟨true, "keyword_cluster", keywordClusterExtractOptions parse⟩
  else
    none

/-- The `toolConfig` useMemo: `null` unless the tool call is an MCP
call with a non-empty function identifier known to the registry. -/
def resolveToolConfig (parse : String → Option Js) (toolCallName : Option String) : Option ToolConfig :=
  let (functionName, _, isMCPToolCall) := parseToolName toolCallName
  if !isMCPToolCall || functionName = "" then none
  else mcpToolConfigs parse functionName

/-- One record of the `submittedFormsState` store, as written by the
trigger effect.  `submittedData` is `none` until submission.  The
defaults written by a spread of a missing record (`...prev[formId]`
with no previous record) are the falsy readings of the then-`undefined`
fields. -/
structure FormRecord where
  isSubmitted : Bool
  isCancelled : Bool
  toolName : String
  serverName : String
  requestId : Option String
  options : Js
  output : String
  formType : String
  submittedData : Option Js

/-- The process-wide detector state: the keyed form store
(`submittedFormsState`) and the per-conversation blocked flags
(`isChatBlockedState`); missing keys read as `undefined`/falsy. -/
structure OrchState where
  forms : String → Option FormRecord
  blocked : String → Bool

/-- Primitive effects performed by the detector's effect and handlers,
in source order. -/
inductive Action where
  | openPending : String → FormRecord → Action
  | markSubmitted : String → Js → Action
  | markCancelled : String → Action
  | sendMessage : String → Action
  | setBlocked : String → Bool → Action

/-- Does the action dispatch a chat message? -/
def Action.isSend : Action → Bool
  | .sendMessage _ => true
  | _ => false

/-- Does the action mark a record submitted? -/
def Action.isMarkSubmitted : Action → Bool
  | .markSubmitted _ _ => true
  | _ => false

/-- Does the action release the given conversation's lock? -/
def Action.isRelease (conv : String) : Action → Bool
  | .setBlocked c false => c = conv
  | _ => false

/-- `\x7b...prev[formId], isSubmitted: true, submittedData\x7d`. -/
def recMarkSubmitted (prev : Option FormRecord) (d : Js) : FormRecord :=
  match prev with
  | some r => { r with isSubmitted := true, submittedData := some d }
  | none =>
    { isSubmitted := true, isCancelled := false, toolName := "", serverName := "",
      requestId := none, options := .undefined, output := "", formType := "",
      submittedData := some d }

/-- `\x7b...prev[formId], isSubmitted: false, isCancelled: true\x7d`. -/
def recMarkCancelled (prev : Option FormRecord) : FormRecord :=
  match prev with
  | some r => { r with isSubmitted := false, isCancelled := true }
  | none =>
    { isSubmitted := false, isCancelled := true, toolName := "", serverName := "",
      requestId := none, options := .undefined, output := "", formType := "",
      submittedData := none }

/-- State semantics of one primitive action. -/
def applyAction (st : OrchState) : Action → OrchState
  | .openPending fid r =>
    { st with forms := fun k => if k = fid then some r else st.forms k }
  | .markSubmitted fid d =>
    { st with forms := fun k => if k = fid then some (recMarkSubmitted (st.forms fid) d) else st.forms k }
  | .markCancelled fid =>
    { st with forms := fun k => if k = fid then some (recMarkCancelled (st.forms fid)) else st.forms k }
  | .sendMessage _ => st
  | .setBlocked conv v =>
    { st with blocked := fun k => if k = conv then v else st.blocked k }

/-- Running a trace of actions from a state. -/
def runActions (st : OrchState) (tr : List Action) : OrchState :=
  tr.foldl applyAction st

/-- The per-render inputs of `MCPToolDetector`. -/
structure DetectorCtx where
  toolCallName : Option String
  output : Option String
  conversationId : String
  messageId : String

/-- The conversation key `conversationId || 'no-conv'`. -/
def DetectorCtx.convKey (ctx : DetectorCtx) : String :=
  strOr ctx.conversationId "no-conv"

/-- The `formId` of the render, combining the extracted request id with
the conversation/message/function fallback. -/
def DetectorCtx.formId (ctx : DetectorCtx) (functionName : String) : String :=
  formIdOf (extractRequestId ctx.output) ctx.conversationId ctx.messageId functionName

/-- Trace of the trigger `useEffect` body: nothing unless a configured
MCP tool with `triggerForm` and non-null, non-empty output arrives and
the extracted bundle passes `hasValidOptions`; otherwise block the
conversation and write a fresh pending record under the `formId`
(overwriting whatever record was there). -/
def triggerTrace (parse : String → Option Js) (ctx : DetectorCtx) : List Action :=
  match resolveToolConfig parse ctx.toolCallName with
  | none => []
  | some cfg =>
    if !cfg.triggerForm then []
    else
      match ctx.output with
      | none => []
      | some out =>
        if out = "" then []
        else
          if hasValidOptions (cfg.extractOptions out) then
            [ .setBlocked ctx.convKey true,
              .openPending (ctx.formId (parseToolName ctx.toolCallName).1)
                { isSubmitted := false, isCancelled := false,
                  toolName := (parseToolName ctx.toolCallName).1,
                  serverName := (parseToolName ctx.toolCallName).2.1,
                  requestId := extractRequestId ctx.output,
                  options := cfg.extractOptions out,
                  output := out, formType := cfg.formType, submittedData := none } ]
          else []

/-- State effect of one run of the trigger `useEffect`. -/
def triggerEffect (parse : String → Option Js) (ctx : DetectorCtx) (st : OrchState) : OrchState :=
  runActions st (triggerTrace parse ctx)

/-- The unmount cleanup effect: when a tool config is present and the
render's record is not submitted, clear the conversation's blocked
flag; the form store is not touched. -/
def cleanupEffect (hasToolConfig : Bool) (thisFormState : Option FormRecord) (ctx : DetectorCtx) (st : OrchState) : OrchState :=
  let isSubmitted := match thisFormState with
    | some r => r.isSubmitted
    | none => false
  if hasToolConfig && !isSubmitted then
    { st with blocked := fun k => if k = ctx.convKey then false else st.blocked k }
  else st

/-- The component's render dispatch: `null` without a tool config,
otherwise the form component selected by the config's form type. -/
def renderedForm (parse : String → Option Js) (toolCallName : Option String) : Option String :=
  match resolveToolConfig parse toolCallName with
  | none => none
  | some cfg =>
    if cfg.formType = "crawl" then some "CrawlForm"
    else if cfg.formType = "add_crawl_config" then some "AddCrawlConfigForm"
    else if cfg.formType = "custom" then some "CustomForm"
    else if cfg.formType = "outreach" then some "OutreachForm"
    else if cfg.formType = "site_keyword" then some "SiteKeywordForm"
    else if cfg.formType = "keyword_cluster" then some "KeywordClusterForm"
    else none

/-! ### Regex helpers of the message synthesis -/

/-- Try a positional matcher at every suffix, leftmost first. -/
def scanPositions {α : Type} (check : List Char → Option α) : List Char → Option α
  | [] => check []
  | c :: cs =>
    match check (c :: cs) with
    | some r => some r
    | none => scanPositions check cs

/-- Character class `[a-f0-9]` of the UUID pattern. -/
def isHexDigitLower (c : Char) : Bool :=
  ('a' ≤ c && c ≤ 'f') || ('0' ≤ c && c ≤ '9')

/-- Consume exactly `n` hex characters. -/
def takeHex : Nat → List Char → Option (List Char)
  | 0, l => some l
  | _ + 1, [] => none
  | n + 1, c :: cs => if isHexDigitLower c then takeHex n cs else none

/-- Consume a literal dash. -/
def takeDash : List Char → Option (List Char)
  | '-' :: cs => some cs
  | _ => none

/-- Positional check for the fixed-width UUID pattern
`[a-f0-9]{8}-[a-f0-9]{4}-[a-f0-9]{4}-[a-f0-9]{4}-[a-f0-9]{12}`. -/
def uuidCheck (l : List Char) : Option String :=
  ((takeHex 8 l).bind takeDash |>.bind (takeHex 4) |>.bind takeDash |>.bind (takeHex 4)
      |>.bind takeDash |>.bind (takeHex 4) |>.bind takeDash |>.bind (takeHex 12)).map
    (fun _ => ⟨l.take 36⟩)

/-- First UUID-shaped token of a string (`resultString.match(...)[0]`). -/
def findUuid (s : String) : Option String :=
  scanPositions uuidCheck s.toList

/-- Positional check for `\x27<field>\x27:\s*\x27(<token>)\x27` where
the token is a nonempty run of characters satisfying `cls` followed by
the closing quote. -/
def quotedFieldCheck (field : String) (cls : Char → Bool) (l : List Char) : Option String :=
  let lit := ("\x27" ++ field ++ "\x27:").toList
  if lit.isPrefixOf l then
    let r := (l.drop lit.length).dropWhile Char.isWhitespace
    match r with
    | '\x27' :: r2 =>
      let tok := r2.takeWhile cls
      if tok.isEmpty then none
      else
        match r2.drop tok.length with
        | '\x27' :: _ => some ⟨tok⟩
        | _ => none
    | _ => none
  else none

/-- First capture of `/\x27id\x27:\s*\x27([a-f0-9-]+)\x27/`. -/
def findQuotedId (s : String) : Option String :=
  scanPositions (quotedFieldCheck "id" isHexDash) s.toList

/-- First capture of `/\x27descriptions\x27:\s*\x27([^\x27]+)\x27/`. -/
def findQuotedDescription (s : String) : Option String :=
  scanPositions (quotedFieldCheck "descriptions" (fun c => c ≠ '\x27')) s.toList

/-- Positional check for `/(\d+)\s+cluster/i`. -/
def clusterCountCheck (l : List Char) : Option String :=
  let ds := l.takeWhile Char.isDigit
  if ds.isEmpty then none
  else
    let r := l.drop ds.length
    let ws := r.takeWhile Char.isWhitespace
    if ws.isEmpty then none
    else if "cluster".toList.isPrefixOf ((r.drop ws.length).map Char.toLower) then some ⟨ds⟩
    else none

/-- First capture of `/(\d+)\s+cluster/i`. -/
def findClusterCount (s : String) : Option String :=
  scanPositions clusterCountCheck s.toList

/-- Test of `/^\d{4}-\d{2}-\d{2}/` on a string value. -/
def startsWithDate (v : Js) : Bool :=
  match v with
  | .str s =>
    match s.toList with
    | a :: b :: c :: d :: '-' :: e :: f :: '-' :: g :: h :: _ =>
      a.isDigit && b.isDigit && c.isDigit && d.isDigit && e.isDigit && f.isDigit &&
        g.isDigit && h.isDigit
    | _ => false
  | _ => false

/-- Is the value a JS string (`typeof v === 'string'`)? -/
def isStr : Js → Bool
  | .str _ => true
  | _ => false

/-! ### Label resolution (`submittedDataWithLabels`) -/

/-- `(thisFormState as any).options || \x7b\x7d` where `thisFormState`
is `submittedForms[formId] || \x7bisSubmitted: false\x7d`. -/
def stateOptions : Option FormRecord → Js
  | some r => jsOrElse r.options (.obj [])
  | none => .obj []

/-- `(thisFormState as any).options` without the `|| \x7b\x7d` guard
(the site-keyword/keyword-cluster/custom message branches use plain
optional chaining on it). -/
def stateOptionsRaw : Option FormRecord → Js
  | some r => r.options
  | none => .undefined

/-- `website ? `$\x7bwebsite.name\x7d ($\x7bwebsite.url\x7d)` :
data.website_id` over the stored crawl bundle. -/
def crawlWebsiteLabel (options data : Js) : Js :=
  let website := jsFindBy (jsGetOpt options "websites") "id" (jsGetOpt data "website_id")
  if website.truthy then
    .str (jsToStr (jsGetOpt website "name") ++ " (" ++ jsToStr (jsGetOpt website "url") ++ ")")
  else jsGetOpt data "website_id"

/-- Crawl-config label: the matched config's name, else the literal
`Default Configuration` for the id `default`, else the raw id. -/
def crawlConfigLabelOf (options data : Js) : Js :=
  let cc := jsFindBy (jsGetOpt options "crawlConfigs") "id" (jsGetOpt data "crawl_config_id")
  if cc.truthy then jsGetOpt cc "name"
  else if jsEq (jsGetOpt data "crawl_config_id") (.str "default") then .str "Default Configuration"
  else jsGetOpt data "crawl_config_id"

/-- `sender ? `$\x7bname\x7d ($\x7boccupation || 'No title'\x7d) at
$\x7bcompany_name\x7d` : undefined`. -/
def outreachSenderLabel (sender : Js) : Js :=
  if sender.truthy then
    .str (jsToStr (jsGetOpt sender "name") ++ " (" ++
      jsToStr (jsOrElse (jsGetOpt sender "occupation") (.str "No title")) ++ ") at " ++
      jsToStr (jsGetOpt sender "company_name"))
  else .undefined

/-- `list ? `$\x7blist_name\x7d ($\x7bMath.floor(leads_count)\x7d
contacts)` : undefined`. -/
def outreachListLabel (list : Js) : Js :=
  if list.truthy then
    .str (jsToStr (jsGetOpt list "list_name") ++ " (" ++
      mathFloorStr (jsGetOpt list "leads_count") ++ " contacts)")
  else .undefined

/-- The `submittedDataWithLabels` computation of `handleFormSubmit`:
spread of the submission payload extended with form-type-specific
label fields. -/
def submittedDataWithLabels (formType : String) (opts data : Js) : Js :=
  if formType = "outreach" then
    let sender := jsFindBy (jsGetOpt opts "senders") "id" (jsGetOpt data "sender_id")
    let list := jsFindBy (jsGetOpt opts "lists") "id" (jsGetOpt data "list_id")
    let campaign := jsFindBy (jsGetOpt opts "campaigns") "id" (jsGetOpt data "campaign_id")
    let template := jsFindBy (jsGetOpt opts "templates") "id" (jsGetOpt data "template_id")
    jsSpread data
      [("senderLabel", outreachSenderLabel sender),
       ("listLabel", outreachListLabel list),
       ("campaignLabel", jsGetOpt campaign "name"),
       ("templateLabel", jsGetOpt template "name")]
  else if formType = "crawl" then
    jsSpread data
      [("websiteLabel", crawlWebsiteLabel opts data),
       ("crawlConfigLabel", crawlConfigLabelOf opts data)]
  else if formType = "add_crawl_config" then
    jsSpread data [("fileName", jsGetOpt (jsGetOpt data "file") "name")]
  else
    jsSpread data []

/-! ### Message synthesis (`handleFormSubmit` message branches) -/

/-- Environment-dependent JavaScript builtins used by the synthesis:
`JSON.parse`, `JSON.stringify`, `Date#toLocaleDateString` and
`Date#toLocaleString`, all modelled abstractly. -/
structure MsgEnv where
  parse : String → Option Js
  stringify : Js → String
  fmtDate : Js → String
  fmtDateTime : Js → String

/-- `data.toolResponse?.result`. -/
def toolResponseResult (data : Js) : Js :=
  jsGetOpt (jsGetOpt data "toolResponse") "result"

/-- `typeof r === 'string' ? r : JSON.stringify(r)`. -/
def resultStringOf (stringify : Js → String) (r : Js) : String :=
  match r with
  | .str s => s
  | v => stringify v

/-- The crawl branch's `resultInfo` (its try block never throws, so the
catch is dead). -/
def crawlResultInfo (stringify : Js → String) (data : Js) : String :=
  let tr := toolResponseResult data
  if tr.truthy then
    let resultString := resultStringOf stringify tr
    if containsSub resultString "successfully" || containsSub resultString "created" ||
        containsSub resultString "crawl" then
      let base := "\n\n✅ **Status:** Crawl operation created successfully"
      match findUuid resultString with
      | some id => base ++ "\n📋 **Operation ID:** " ++ id
      | none => base
    else if containsSub resultString "error" || containsSub resultString "Error" then
      "\n\n❌ **Status:** Failed\n⚠️ **Error:** " ++ resultString
    else "\n\n✅ **Status:** Request completed"
  else ""

/-- The crawl branch's message. -/
def crawlMessage (env : MsgEnv) (record : Option FormRecord) (data : Js) : String :=
  let opts := stateOptions record
  let launch := jsGetOpt data "launch_date"
  "I have submitted the crawl configuration with the following details:\n\n🌐 **Website:** " ++
    jsToStr (crawlWebsiteLabel opts data) ++ "\n⚙️ **Crawl Config:** " ++
    jsToStr (crawlConfigLabelOf opts data) ++ "\n📅 **Launch Date:** " ++
    (if launch.truthy then env.fmtDate launch else "Not specified") ++
    "\n📝 **Description:** " ++ jsToStr (jsOrElse (jsGetOpt data "description") (.str "Not specified")) ++
    crawlResultInfo env.stringify data

/-- The add-crawl-config branch's `resultInfo`: a parsed config id on
success, a generic created line when parsing the response throws, and
the `Failed` line for `data.toolResponse?.error`. -/
def addCrawlConfigResultInfo (parse : String → Option Js) (data : Js) : String :=
  let tr := toolResponseResult data
  if tr.truthy then
    tryCatch
      (do
        let configData ← (match tr with
          | .str s =>
            (match parse s with
             | some c => Except.ok c
             | none => Except.error ())
          | v => Except.ok v)
        let id ← configData.get "id"
        Except.ok (if id.truthy then
          "\n\n✅ **Status:** Configuration created successfully\n📋 **Config ID:** " ++ jsToStr id
        else ""))
      "\n\n✅ **Status:** Configuration created"
  else
    let er := jsGetOpt (jsGetOpt data "toolResponse") "error"
    if er.truthy then "\n\n❌ **Status:** Failed\n⚠️ **Error:** " ++ jsToStr er
    else ""

/-- The add-crawl-config branch's message. -/
def addCrawlConfigMessage (env : MsgEnv) (data : Js) : String :=
  let fileName := jsOrElse (jsGetOpt (jsGetOpt data "file") "name") (.str "config file")
  "I have created the crawl configuration:\n\n📝 **Name:** " ++ jsToStr (jsGetOpt data "name") ++
    "\n📄 **File:** " ++ jsToStr fileName ++ "\n💬 **Description:** " ++
    jsToStr (jsOrElse (jsGetOpt data "description") (.str "Not specified")) ++
    addCrawlConfigResultInfo env.parse data

/-- The outreach branch's `operationInfo` with its catch substituting a
`Failed` line built from the raw result. -/
def outreachOperationInfo (parse : String → Option Js) (data : Js) : String :=
  let tr := toolResponseResult data
  if tr.truthy then
    tryCatch
      (do
        let result ← (match tr with
          | .str s =>
            (match parse s with
             | some c => Except.ok c
             | none => Except.error ())
          | v => Except.ok v)
        let ifPm ← result.get "if_pm"
        let csop := jsGetOpt ifPm "create_sequential_operation"
        let success := jsGetOpt csop "success"
        if success.truthy then do
          let opData := jsGetOpt csop "data"
          let mainOp ← opData.get "mainOpId"
          let outreachOp ← opData.get "outreachOpId"
          Except.ok ("\n\n✅ **Operation Status:** Successfully created\n📋 **Main Operation ID:** " ++
            jsToStr mainOp ++ "\n🚀 **Outreach Operation ID:** " ++ jsToStr outreachOp)
        else if jsEq success (.bool false) then
          Except.ok ("\n\n❌ **Operation Status:** Failed\n⚠️ **Error:** " ++
            jsToStr (jsOrElse (jsGetOpt csop "error") (.str "Unknown error")))
        else
          Except.ok ("\n\n❌ **Operation Status:** Failed\n⚠️ **Error:** " ++ jsToStr result))
      ("\n\n❌ **Operation Status:** Failed\n⚠️ **Error:** " ++ jsToStr tr)
  else ""

/-- The outreach branch's message. -/
def outreachMessage (env : MsgEnv) (record : Option FormRecord) (data : Js) : String :=
  let opts := stateOptions record
  let sender := jsFindBy (jsGetOpt opts "senders") "id" (jsGetOpt data "sender_id")
  let campaign := jsFindBy (jsGetOpt opts "campaigns") "id" (jsGetOpt data "campaign_id")
  let template := jsFindBy (jsGetOpt opts "templates") "id" (jsGetOpt data "template_id")
  let audienceInfo :=
    if jsEq (jsGetOpt data "audience_type") (.str "existing") then
      jsToStr (jsOrElse (jsLength (jsGetOpt data "selected_people")) (.num 0)) ++ " selected contacts"
    else "Manual LinkedIn URLs"
  "I have submitted the outreach campaign configuration:\n\n👤 **Sender:** " ++
    jsToStr (jsOrElse (jsGetOpt sender "name") (.str "Unknown")) ++ " (" ++
    jsToStr (jsOrElse (jsGetOpt sender "occupation") (.str "No title")) ++ ") at " ++
    jsToStr (jsOrElse (jsGetOpt sender "company_name") (.str "Unknown Company")) ++
    "\n👥 **Audience:** " ++ audienceInfo ++ "\n🎯 **Campaign:** " ++
    jsToStr (jsOrElse (jsGetOpt campaign "name") (.str "Unknown")) ++ "\n✉️ **Email Template:** " ++
    jsToStr (jsOrElse (jsGetOpt template "name") (.str "Unknown")) ++
    outreachOperationInfo env.parse data

/-- The site-keyword branch's `resultInfo` (try never throws). -/
def siteKeywordResultInfo (stringify : Js → String) (data : Js) : String :=
  let tr := toolResponseResult data
  if tr.truthy then
    let resultString := resultStringOf stringify tr
    if containsSub resultString "successfully" || containsSub resultString "created" ||
        containsSub resultString "if_lg" then
      let base := "\n\n✅ **Status:** Operation created successfully"
      let base := match findQuotedId resultString with
        | some id => base ++ "\n📋 **Operation ID:** " ++ id
        | none => base
      match findQuotedDescription resultString with
      | some d => base ++ "\n📝 **Description:** " ++ d
      | none => base
    else if containsSub resultString "error" || containsSub resultString "Error" ||
        containsSub resultString "failed" then
      "\n\n❌ **Status:** Failed\n⚠️ **Error:** " ++ resultString
    else "\n\n✅ **Status:** Request completed\n📄 **Response:** " ++ strTake resultString 200
  else ""

/-- The site-keyword branch's message. -/
def siteKeywordMessage (env : MsgEnv) (record : Option FormRecord) (data : Js) : String :=
  let sourceLabel :=
    if jsEq (jsGetOpt data "keywords_source") (.str "gsc") then "Google Search Console"
    else "DataForSEO"
  let website := jsFindBy (jsGetOpt (stateOptionsRaw record) "websites") "id" (jsGetOpt data "website_id")
  let websiteLabel :=
    if website.truthy then
      Js.str (jsToStr (jsGetOpt website "name") ++ " (" ++ jsToStr (jsGetOpt website "url") ++ ")")
    else jsGetOpt data "website_id"
  let dateInfo :=
    if jsEq (jsGetOpt data "keywords_source") (.str "gsc") &&
        ((jsGetOpt data "start_date").truthy && (jsGetOpt data "end_date").truthy) then
      "\n📅 **Date Range:** " ++ jsToStr (jsGetOpt data "start_date") ++ " to " ++
        jsToStr (jsGetOpt data "end_date")
    else ""
  let serviceAccountInfo :=
    if jsEq (jsGetOpt data "keywords_source") (.str "gsc") &&
        (jsGetOpt data "service_account").truthy then
      let sa := jsFindBy (jsGetOpt (stateOptionsRaw record) "serviceAccounts") "id"
        (jsGetOpt data "service_account")
      "\n🔑 **Service Account:** " ++
        jsToStr (if sa.truthy then jsGetOpt sa "email" else jsGetOpt data "service_account")
    else ""
  "I have loaded site keyword data with the following configuration:\n\n🔍 **Source:** " ++
    sourceLabel ++ "\n🌐 **Website:** " ++ jsToStr websiteLabel ++ serviceAccountInfo ++ dateInfo ++
    siteKeywordResultInfo env.stringify data

/-- The keyword-cluster branch's `resultInfo` (try never throws). -/
def keywordClusterResultInfo (stringify : Js → String) (data : Js) : String :=
  let tr := toolResponseResult data
  if tr.truthy then
    let resultString := resultStringOf stringify tr
    if containsSub resultString "successfully" || containsSub resultString "created" ||
        containsSub resultString "cluster" then
      let base := "\n\n✅ **Status:** Clustering operation created successfully"
      let base := match findQuotedId resultString with
        | some id => base ++ "\n📋 **Operation ID:** " ++ id
        | none => base
      let base := match findClusterCount resultString with
        | some n => base ++ "\n📊 **Clusters:** " ++ n
        | none => base
      base ++ "\n⏳ **Note:** Clustering is processing in the background"
    else if containsSub resultString "error" || containsSub resultString "Error" then
      "\n\n❌ **Status:** Failed\n⚠️ **Error:** " ++ resultString
    else "\n\n✅ **Status:** Request completed"
  else ""

/-- The keyword-cluster branch's message. -/
def keywordClusterMessage (env : MsgEnv) (record : Option FormRecord) (data : Js) : String :=
  let website := jsFindBy (jsGetOpt (stateOptionsRaw record) "websites") "id" (jsGetOpt data "website_id")
  let websiteLabel :=
    if website.truthy then
      Js.str (jsToStr (jsGetOpt website "name") ++ " (" ++ jsToStr (jsGetOpt website "url") ++ ")")
    else jsGetOpt data "website_id"
  let urlData := jsGetOpt data "url_data"
  let urlInfo :=
    match urlData with
    | .arr (x :: xs) =>
      if urlData.truthy then
        "\n📄 **URL Scope:** " ++ toString (x :: xs).length ++ " specific URL(s)"
      else "\n📄 **URL Scope:** All keywords on website"
    | _ => "\n📄 **URL Scope:** All keywords on website"
  "I have initiated keyword clustering with the following configuration:\n\n🌐 **Website:** " ++
    jsToStr websiteLabel ++ urlInfo ++ keywordClusterResultInfo env.stringify data

/-- One line of the custom branch's field echo. -/
def customFieldDetail (fmtDateTime : Js → String) (data field : Js) : String :=
  let value := jsGetOpt data (jsPropKey (jsGetOpt field "id"))
  let displayValue : Js :=
    if jsEq (jsGetOpt field "type") (.str "bool") then
      (if value.truthy then .str "Yes" else .str "No")
    else if jsEq (jsGetOpt field "type") (.str "selector") && (jsGetOpt field "options").truthy then
      jsOrElse (jsGetOpt (jsFindBy (jsGetOpt field "options") "value" value) "label") value
    else if value.truthy && isStr value && startsWithDate value then .str (fmtDateTime value)
    else value
  "**" ++ jsToStr (jsGetOpt field "label") ++ ":** " ++ jsToStr displayValue

/-- The fallback (custom form) branch's message, echoing every stored
form field. -/
def customMessage (env : MsgEnv) (formType : String) (record : Option FormRecord) (data : Js) : String :=
  let formFields :=
    match jsOrElse (jsGetOpt (stateOptionsRaw record) "formFields") (.arr []) with
    | .arr xs => xs
    | _ => []
  let fieldDetails := String.intercalate "\n" (formFields.map (customFieldDetail env.fmtDateTime data))
  "I have submitted the " ++ strOr formType "form" ++
    " with the following configuration:\n\n" ++ fieldDetails ++
    "\n\nPlease proceed based on these details."

/-- The full message synthesis of `handleFormSubmit`, by form type. -/
def synthMessage (env : MsgEnv) (formType : String) (record : Option FormRecord) (data : Js) : String :=
  if formType = "crawl" then crawlMessage env record data
  else if formType = "add_crawl_config" then addCrawlConfigMessage env data
  else if formType = "outreach" then outreachMessage env record data
  else if formType = "site_keyword" then siteKeywordMessage env record data
  else if formType = "keyword_cluster" then keywordClusterMessage env record data
  else customMessage env formType record data

/-! ### The submit and cancel handlers -/

/-- Trace of `handleFormSubmit`: store the labelled submission under
the form id, dispatch the synthesized message, release the lock. -/
def handleFormSubmitTrace (env : MsgEnv) (ctx : DetectorCtx) (formType functionName : String) (st : OrchState) (data : Js) : List Action :=
  let fid := ctx.formId functionName
  let record := st.forms fid
  [ .markSubmitted fid (submittedDataWithLabels formType (stateOptions record) data),
    .sendMessage (synthMessage env formType record data),
    .setBlocked ctx.convKey false ]

/-- State effect of `handleFormSubmit`. -/
def handleFormSubmit (env : MsgEnv) (ctx : DetectorCtx) (formType functionName : String) (st : OrchState) (data : Js) : OrchState :=
  runActions st (handleFormSubmitTrace env ctx formType functionName st data)

/-- The fixed neutral message of `handleFormCancel`. -/
def neutralCancelMessage : String :=
  "I decided not to submit the form at this time. Let\x27s continue our conversation."

/-- Trace of `handleFormCancel`: mark the record cancelled, dispatch
the fixed neutral message, release the lock. -/
def handleFormCancelTrace (ctx : DetectorCtx) (functionName : String) : List Action :=
  [ .markCancelled (ctx.formId functionName),
    .sendMessage neutralCancelMessage,
    .setBlocked ctx.convKey false ]

/-- State effect of `handleFormCancel`. -/
def handleFormCancel (ctx : DetectorCtx) (functionName : String) (st : OrchState) : OrchState :=
  runActions st (handleFormCancelTrace ctx functionName)

/-! ### The two-phase upload (`AddCrawlConfigForm.handleSubmit`)

The create call, the raw `PUT` upload and the compensating delete are
HTTP effects; their outcomes are supplied by an abstract environment.
`Except.error msg` models a rejected `fetch` whose thrown `Error` has
message `msg`; the generic messages of runtime `TypeError`s on the dead
branches are placeholders. -/

/-- Outcome-relevant parts of a `fetch` `Response`. -/
structure FetchResp where
  ok : Bool
  status : Nat
  body : String

/-- Abstract network/JSON environment of one submit run. -/
structure UploadEnv where
  parse : String → Option Js
  createResp : Except String FetchResp
  uploadResp : Except String FetchResp
  uploadBodyText : Except String String
  deleteResp : Except String FetchResp

/-- Observable events of one submit run, in source order. -/
inductive UploadEvent where
  | createCall : String → String → String → UploadEvent
  | putUpload : String → UploadEvent
  | deleteCall : String → Js → UploadEvent
  | submitted : Js → UploadEvent

/-- Is the event the compensating delete call? -/
def UploadEvent.isDelete : UploadEvent → Bool
  | .deleteCall _ _ => true
  | _ => false

/-- Is the event the `onSubmit` completion? -/
def UploadEvent.isSubmitted : UploadEvent → Bool
  | .submitted _ => true
  | _ => false

/-- `configData` resolution from the create response JSON: a string
`result.result` is parsed (with the quoted throw message on failure), a
truthy non-string is used directly, a falsy one falls back to the whole
response object. -/
def configDataResolve (parse : String → Option Js) (result : Js) : Except String Js := do
  let rres ← (match result.get "result" with
    | .ok v => Except.ok v
    | .error _ => Except.error "Cannot read properties of a nullish response")
  if rres.truthy then
    match rres with
    | .str s =>
      (match parse s with
       | some c => Except.ok c
       | none => Except.error ("Failed to parse server response: " ++ strTake s 100))
    | v => Except.ok v
  else Except.ok result

/-- The `onSubmit` payload `\x7b...formData, file, toolResponse\x7d`. -/
def uploadPayload (nm desc fileName : String) (toolResponse : Js) : Js :=
  .obj [("name", .str nm), ("description", .str desc),
        ("file", .obj [("name", .str fileName)]), ("toolResponse", toolResponse)]

/-- The catch block of `handleSubmit`: compensating delete when a
config id was captured (its own failure is swallowed), then `onSubmit`
with the error message. -/
def uploadCatch (serverName nm desc fileName : String) (configId : Js) (msg : String) : List UploadEvent :=
  (if configId.truthy then
    [UploadEvent.deleteCall ("delete_crawl_config_mcp_" ++ serverName) configId]
  else []) ++
  [UploadEvent.submitted (uploadPayload nm desc fileName (.obj [("error", .str msg)]))]

/-- Event trace of `AddCrawlConfigForm.handleSubmit`: early return
without file or name; phase 1 creates the config and parses out
`\x7bid, upload_url|uploadUrl\x7d`; phase 2 `PUT`s the file; any throw
after the id was captured triggers the compensating delete before the
failure is surfaced through `onSubmit`. -/
def addCrawlConfigSubmit (env : UploadEnv) (nm desc serverName fileName : String) (hasFile : Bool) : List UploadEvent :=
  if !hasFile || nm = "" then []
  else
    let fail := uploadCatch serverName nm desc fileName
    let evs0 := [UploadEvent.createCall ("create_crawl_config_mcp_" ++ serverName) nm desc]
    match env.createResp with
    | .error e => evs0 ++ fail .null e
    | .ok cr =>
      if !cr.ok then
        evs0 ++ fail .null ("Failed to create config: " ++ toString cr.status ++ " - " ++ cr.body)
      else
        match env.parse cr.body with
        | none => evs0 ++ fail .null "Unexpected token in JSON"
        | some result =>
          match configDataResolve env.parse result with
          | .error m => evs0 ++ fail .null m
          | .ok configData =>
            match configData.get "id" with
            | .error _ => evs0 ++ fail .null "Cannot read properties of a nullish config"
            | .ok cid =>
              let uploadUrl := jsOrElse (jsGetOpt configData "upload_url") (jsGetOpt configData "uploadUrl")
              if !uploadUrl.truthy then
                evs0 ++ fail cid "No upload URL received from server. The config may have been created but file upload cannot proceed."
              else
                let evs1 := evs0 ++ [UploadEvent.putUpload (jsToStr uploadUrl)]
                match env.uploadResp with
                | .error e => evs1 ++ fail cid e
                | .ok ur =>
                  if !ur.ok then
                    let errText := match env.uploadBodyText with
                      | .ok t => t
                      | .error _ => "Unable to read error response"
                    evs1 ++ fail cid ("Upload failed: " ++ toString ur.status ++ " - " ++ errText)
                  else
                    evs1 ++ [UploadEvent.submitted
                      (uploadPayload nm desc fileName (.obj [("result", configData)]))]

/-! ### Shared test fixtures -/

/-- A `JSON.parse` that fails on every input. -/
def noParse : String → Option Js := fun _ => none

/-- Scenario A raw output. -/
def scenarioAOutput : String :=
  "\x7b\"websites\":[\x7b\"id\":\"w1\",\"name\":\"Acme\",\"url\":\"acme.com\"\x7d]\x7d"

/-- A `JSON.parse` defined exactly on the Scenario A output. -/
def testParse : String → Option Js := fun s =>
  if s = scenarioAOutput then
    some (.obj [("websites",
      .arr [.obj [("id", .str "w1"), ("name", .str "Acme"), ("url", .str "acme.com")]])])
  else none

/-- The empty initial detector state. -/
def initState : OrchState := ⟨fun _ => none, fun _ => false⟩

/-- Scenario A render context. -/
def scenarioACtx : DetectorCtx :=
  ⟨some "render_crawl_form_mcp_srv", some scenarioAOutput, "conv1", "m1"⟩

/-- The form id Scenario A resolves to (no embedded request id). -/
def scenarioAFormId : String := "conv1-m1-render_crawl_form"

/-- A store holding a terminal (submitted) Scenario A record. -/
def terminalForms : String → Option FormRecord := fun k =>
  if k = scenarioAFormId then
    some { isSubmitted := true, isCancelled := false, toolName := "render_crawl_form",
           serverName := "srv", requestId := none,
           options := crawlExtractOptions testParse scenarioAOutput,
           output := scenarioAOutput, formType := "crawl", submittedData := some (.obj []) }
  else none

/-- Detector state with the terminal Scenario A record and no lock. -/
def terminalState : OrchState := ⟨terminalForms, fun _ => false⟩

/-! ### Helper lemmas -/

/-- A list without the marker has no request-id match. -/
theorem findRequestId_eq_none_of_not_contains (l : List Char)
    (h : containsSubAux requestIdMarker l = false) : findRequestId l = none := by
  induction l with
  | nil => rfl
  | cons c cs ih =>
    unfold containsSubAux at h
    rw [Bool.or_eq_false_iff] at h
    unfold findRequestId
    rw [if_neg (by simp [h.1])]
    exact ih h.2

/-- `objSet` binds the written key. -/
theorem jsLookup_objSet_self (kvs : List (String × Js)) (k : String) (v : Js) :
    jsLookup (objSet kvs k v) k = some v := by
  unfold objSet jsLookup
  split
  · next hany =>
    rw [List.find?_map]
    have hp : (fun kv => decide (kv.1 = k)) ∘ (fun kv : String × Js => if kv.1 = k then (k, v) else kv)
        = fun kv : String × Js => decide (kv.1 = k) := by
      funext kv
      by_cases hkv : kv.1 = k <;> simp [hkv]
    rw [hp]
    rcases hf : kvs.find? (fun kv => decide (kv.1 = k)) with _ | kv0
    · rw [List.find?_eq_none] at hf
      rw [List.any_eq_true] at hany
      obtain ⟨x, hx, hpx⟩ := hany
      exact absurd hpx (by simpa using hf x hx)
    · have hp0 : kv0.1 = k := by simpa using List.find?_some hf
      rw [hf]
      simp [hp0]
  · next hany =>
    rw [List.find?_append]
    have hnone : kvs.find? (fun kv => decide (kv.1 = k)) = none := by
      rw [List.find?_eq_none]
      intro x hx
      simp only [Bool.not_eq_true, decide_eq_false_iff_not]
      intro hxk
      exact hany (List.any_eq_true.mpr ⟨x, hx, by simp [hxk]⟩)
    simp [hnone, List.find?]

/-- `objSet` leaves other keys unchanged. -/
theorem jsLookup_objSet_ne (kvs : List (String × Js)) (k k' : String) (v : Js)
    (h : k' ≠ k) : jsLookup (objSet kvs k v) k' = jsLookup kvs k' := by
  unfold objSet jsLookup
  split
  · rw [List.find?_map]
    have hp : (fun kv => decide (kv.1 = k')) ∘ (fun kv : String × Js => if kv.1 = k then (k, v) else kv)
        = fun kv : String × Js => decide (kv.1 = k') := by
      funext kv
      by_cases hkv : kv.1 = k <;> simp [hkv, Ne.symm h]
    rw [hp]
    rcases hf : kvs.find? (fun kv => decide (kv.1 = k')) with _ | kv0
    · rw [hf]
      rfl
    · have hp0 : kv0.1 = k' := by simpa using List.find?_some hf
      have hne : ¬(kv0.1 = k) := by
        rw [hp0]
        exact h
      rw [hf]
      simp [hne]
  · rw [List.find?_append]
    have hnone : List.find? (fun kv => decide (kv.1 = k')) [(k, v)] = none := by
      simp [List.find?, Ne.symm h]
    simp [hnone]

/-! ### Claim C3: request-identity resolution -/

/-- C3: the request-identity resolution is a pure deterministic
function of `(output, conversationId, messageId, toolName)`.  When the
output contains the marker `request_id::` followed by a UUID-shaped
token (i.e. the regex captures `tok`), the form id is
`"{conversationId}-{tok}"` and is independent of the message id; when
the output does not contain the marker, the form id is
`"{conversationId}-{messageId}-{toolName}"`; and two calls on identical
inputs agree. -/
theorem requestIdentity_resolution (out conv msg msg2 tool : String)
    (hconv : conv ≠ "") (hmsg : msg ≠ "") :
    (∀ tok, extractRequestId (some out) = some tok →
      formIdOf (extractRequestId (some out)) conv msg tool = conv ++ "-" ++ tok ∧
      formIdOf (extractRequestId (some out)) conv msg2 tool =
        formIdOf (extractRequestId (some out)) conv msg tool) ∧
    (containsSub out "request_id::" = false →
      formIdOf (extractRequestId (some out)) conv msg tool =
        conv ++ "-" ++ msg ++ "-" ++ tool) ∧
    formIdOf (extractRequestId (some out)) conv msg tool =
      formIdOf (extractRequestId (some out)) conv msg tool := by
  refine ⟨?_, ?_, rfl⟩
  · intro tok h
    rw [h]
    constructor
    · simp [formIdOf, strOr, hconv]
    · rfl
  · intro h2
    have hn : extractRequestId (some out) = none := by
      unfold extractRequestId
      by_cases he : out = ""
      · simp [he]
      · simp only [if_neg he]
        rw [findRequestId_eq_none_of_not_contains out.toList h2]
        rfl
    rw [hn]
    simp [formIdOf, strOr, hconv, hmsg]

/-- Witness for C3 at Scenario D: `request_id::abc-123-def` in
conversation `conv1` yields `conv1-abc-123-def` independently of the
message id, and a marker-free output yields the composite fallback. -/
theorem requestIdentity_resolution_witness :
    formIdOf (extractRequestId (some "request_id::abc-123-def")) "conv1" "m1" "t" =
      "conv1" ++ "-" ++ "abc-123-def" ∧
    formIdOf (extractRequestId (some "request_id::abc-123-def")) "conv1" "m2" "t" =
      formIdOf (extractRequestId (some "request_id::abc-123-def")) "conv1" "m1" "t" ∧
    formIdOf (extractRequestId (some "no marker here")) "conv1" "m1" "t" =
      "conv1" ++ "-" ++ "m1" ++ "-" ++ "t" := by
  have h := requestIdentity_resolution "request_id::abc-123-def" "conv1" "m1" "m2" "t"
    (by decide) (by decide)
  have h2 := requestIdentity_resolution "no marker here" "conv1" "m1" "m2" "t"
    (by decide) (by decide)
  have ha := h.1 "abc-123-def" (by decide)
  exact ⟨ha.1, ha.2, h2.2.1 (by decide)⟩

/-! ### Claim C10: tool names without the MCP delimiter are inert -/

/-- C10: a tool call whose name does not contain the MCP delimiter
resolves no form configuration: the registry lookup yields `null`, the
trigger effect performs no action and leaves store and lock unchanged,
and the component renders nothing — even when the bare name equals a
configured function name. -/
theorem nonMcpToolName_inert (parse : String → Option Js) (name : String)
    (h : containsSub name mcpDelimiter = false) :
    resolveToolConfig parse (some name) = none ∧
    (∀ out conv msg st, triggerTrace parse ⟨some name, out, conv, msg⟩ = [] ∧
      triggerEffect parse ⟨some name, out, conv, msg⟩ st = st) ∧
    renderedForm parse (some name) = none := by
  have hr : resolveToolConfig parse (some name) = none := by
    simp [resolveToolConfig, parseToolName, h]
  refine ⟨hr, ?_, ?_⟩
  · intro out conv msg st
    refine ⟨?_, ?_⟩
    · simp [triggerTrace, hr]
    · simp [triggerEffect, runActions, triggerTrace, hr]
  · simp [renderedForm, hr]

/-- Witness for C10 at the bare configured name `render_crawl_form`. -/
theorem nonMcpToolName_inert_witness :
    resolveToolConfig noParse (some "render_crawl_form") = none ∧
    triggerTrace noParse ⟨some "render_crawl_form", some "x", "c", "m"⟩ = [] ∧
    triggerEffect noParse ⟨some "render_crawl_form", some "x", "c", "m"⟩ initState = initState ∧
    renderedForm noParse (some "render_crawl_form") = none := by
  have h := nonMcpToolName_inert noParse "render_crawl_form" (by decide)
  have h2 := h.2.1 (some "x") "c" "m" initState
  exact ⟨h.1, h2.1, h2.2, h.2.2⟩

/-! ### Claim C2: the validity gate on empty bundles -/

/-- C2 (evaluation of the code at the failing input): for
`render_add_crawl_config_form` with unparseable output the extractor
returns its empty bundle `\x7bprefilledParams: \x7b\x7d\x7d` — every
list empty, every scalar falsy — yet `hasValidOptions` accepts it
because `!!val` is `true` for the empty object, so the trigger effect
does write a pending record and does block the conversation,
contradicting the validity-gate invariant. -/
theorem emptyBundle_passesGate_and_triggers :
    addCrawlConfigExtractOptions noParse "not valid json" = emptyAddCrawlConfigBundle ∧
    hasValidOptions emptyAddCrawlConfigBundle = true ∧
    ((triggerEffect noParse
        ⟨some "render_add_crawl_config_form_mcp_srv", some "not valid json", "conv1", "m1"⟩
        initState).forms "conv1-m1-render_add_crawl_config_form").isSome = true ∧
    (triggerEffect noParse
        ⟨some "render_add_crawl_config_form_mcp_srv", some "not valid json", "conv1", "m1"⟩
        initState).blocked "conv1" = true := by
  exact ⟨rfl, rfl, rfl, rfl⟩

/-! ### Claim C1: re-trigger behaviour on terminal records -/

/-- One run of the trigger effect either does nothing or blocks the
conversation and writes one fresh pending record; it never dispatches
any other action. -/
theorem triggerTrace_shape (parse : String → Option Js) (ctx : DetectorCtx) :
    triggerTrace parse ctx = [] ∨
    ∃ fid r, triggerTrace parse ctx =
      [Action.setBlocked ctx.convKey true, Action.openPending fid r] := by
  unfold triggerTrace
  split
  · exact Or.inl rfl
  · split
    · exact Or.inl rfl
    · split
      · exact Or.inl rfl
      · split
        · exact Or.inl rfl
        · split
          · exact Or.inr ⟨_, _, rfl⟩
          · exact Or.inl rfl

/-- C1 counterexample: replaying the Scenario A tool-call event through
the trigger effect while its record is already terminal (submitted)
overwrites the record back to a pending one (so the form re-opens) and
re-acquires the conversation lock, contradicting the claim that a
terminal record is left unchanged. -/
theorem terminalRecord_reopened_counterexample :
    (terminalState.forms scenarioAFormId).map FormRecord.isSubmitted = some true ∧
    terminalState.blocked "conv1" = false ∧
    ((triggerEffect testParse scenarioACtx terminalState).forms scenarioAFormId).map
      FormRecord.isSubmitted = some false ∧
    (triggerEffect testParse scenarioACtx terminalState).blocked "conv1" = true := by
  exact ⟨rfl, rfl, rfl, rfl⟩

/-- C1 amended: the trigger path never dispatches a chat message, and a
re-arrival that fails any trigger guard (no resolved config, null
output, or an invalid extracted bundle) leaves the state — in
particular a terminal record — unchanged; but when the trigger effect
re-runs with output whose bundle is valid, it overwrites whatever
record the form id held with a fresh pending record and re-acquires the
conversation lock. -/
theorem terminalRecord_retrigger_amended (parse : String → Option Js) (ctx : DetectorCtx) (st : OrchState) :
    (triggerTrace parse ctx).countP Action.isSend = 0 ∧
    (resolveToolConfig parse ctx.toolCallName = none → triggerEffect parse ctx st = st) ∧
    (ctx.output = none → triggerEffect parse ctx st = st) ∧
    (∀ cfg out, resolveToolConfig parse ctx.toolCallName = some cfg → ctx.output = some out →
      hasValidOptions (cfg.extractOptions out) = false → triggerEffect parse ctx st = st) ∧
    (∀ cfg out, resolveToolConfig parse ctx.toolCallName = some cfg → ctx.output = some out →
      out ≠ "" → cfg.triggerForm = true → hasValidOptions (cfg.extractOptions out) = true →
      ((triggerEffect parse ctx st).forms
          (ctx.formId (parseToolName ctx.toolCallName).1)).map FormRecord.isSubmitted =
        some false ∧
      (triggerEffect parse ctx st).blocked ctx.convKey = true) := by
  refine ⟨?_, ?_, ?_, ?_, ?_⟩
  · rcases triggerTrace_shape parse ctx with h | ⟨fid, r, h⟩ <;> rw [h] <;> rfl
  · intro h
    have htr : triggerTrace parse ctx = [] := by
      unfold triggerTrace
      rw [h]
    simp [triggerEffect, htr, runActions]
  · intro h
    have htr : triggerTrace parse ctx = [] := by
      unfold triggerTrace
      rcases hc : resolveToolConfig parse ctx.toolCallName with _ | cfg
      · rfl
      · rw [h]
        simp
    simp [triggerEffect, htr, runActions]
  · intro cfg out hc ho hv
    have htr : triggerTrace parse ctx = [] := by
      unfold triggerTrace
      rw [hc, ho]
      by_cases ht : cfg.triggerForm
      · by_cases he : out = ""
        · simp [ht, he]
        · simp [ht, he, hv]
      · simp [ht]
    simp [triggerEffect, htr, runActions]
  · intro cfg out hc ho he ht hv
    have htr : triggerTrace parse ctx =
        [Action.setBlocked ctx.convKey true,
         Action.openPending (ctx.formId (parseToolName ctx.toolCallName).1)
          { isSubmitted := false, isCancelled := false,
            toolName := (parseToolName ctx.toolCallName).1,
            serverName := (parseToolName ctx.toolCallName).2.1,
            requestId := extractRequestId ctx.output,
            options := cfg.extractOptions out,
            output := out, formType := cfg.formType, submittedData := none }] := by
      unfold triggerTrace
      rw [hc, ho]
      simp [ht, he, hv]
    refine ⟨?_, ?_⟩
    · simp [triggerEffect, htr, runActions, applyAction]
    · simp [triggerEffect, htr, runActions, applyAction]

/-- Witness for the amended C1: the Scenario A retrigger sends no
message; an invalid-bundle retrigger leaves the terminal state
unchanged; the valid-bundle retrigger re-opens the record and re-locks
the conversation. -/
theorem terminalRecord_retrigger_amended_witness :
    (triggerTrace testParse scenarioACtx).countP Action.isSend = 0 ∧
    triggerEffect noParse ⟨some "render_custom_form_mcp_srv", some "bad", "conv1", "m1"⟩
      terminalState = terminalState ∧
    ((triggerEffect testParse scenarioACtx terminalState).forms
        (scenarioACtx.formId (parseToolName scenarioACtx.toolCallName).1)).map
      FormRecord.isSubmitted = some false ∧
    (triggerEffect testParse scenarioACtx terminalState).blocked scenarioACtx.convKey = true := by
  have h1 := terminalRecord_retrigger_amended testParse scenarioACtx terminalState
  have h2 := terminalRecord_retrigger_amended noParse
    ⟨some "render_custom_form_mcp_srv", some "bad", "conv1", "m1"⟩ terminalState
  have h5 := h1.2.2.2.2 ⟨true, "crawl", crawlExtractOptions testParse⟩ scenarioAOutput
    rfl rfl (by decide) rfl rfl
  exact ⟨h1.1,
    h2.2.2.2.1 ⟨true, "custom", customExtractOptions noParse⟩ "bad" rfl rfl rfl,
    h5.1, h5.2⟩

/-! ### Claim C9: unmount cleanup while pending -/

/-- C9: tearing down the component instance owning a still-pending
record releases the owning conversation's blocked flag and leaves the
form store — and hence the pending record — completely unchanged. -/
theorem cleanup_releasesLock_keepsRecord (ctx : DetectorCtx) (fn : String)
    (st : OrchState) (r : FormRecord)
    (h : st.forms (ctx.formId fn) = some r)
    (hs : r.isSubmitted = false) (_hc : r.isCancelled = false) :
    (cleanupEffect true (st.forms (ctx.formId fn)) ctx st).blocked ctx.convKey = false ∧
    (cleanupEffect true (st.forms (ctx.formId fn)) ctx st).forms = st.forms ∧
    (cleanupEffect true (st.forms (ctx.formId fn)) ctx st).forms (ctx.formId fn) = some r := by
  rw [h]
  unfold cleanupEffect
  simp [hs, h]

/-- Witness for C9 with a concrete pending record. -/
theorem cleanup_releasesLock_keepsRecord_witness :
    (cleanupEffect true
      ((OrchState.mk
          (fun k => if k = DetectorCtx.formId ⟨some "t", some "o", "conv1", "m1"⟩ "fn" then
            some { isSubmitted := false, isCancelled := false, toolName := "fn",
                   serverName := "srv", requestId := none, options := .obj [],
                   output := "o", formType := "crawl", submittedData := none }
            else none)
          (fun _ => true)).forms
        (DetectorCtx.formId ⟨some "t", some "o", "conv1", "m1"⟩ "fn"))
      ⟨some "t", some "o", "conv1", "m1"⟩
      (OrchState.mk
        (fun k => if k = DetectorCtx.formId ⟨some "t", some "o", "conv1", "m1"⟩ "fn" then
          some { isSubmitted := false, isCancelled := false, toolName := "fn",
                 serverName := "srv", requestId := none, options := .obj [],
                 output := "o", formType := "crawl", submittedData := none }
          else none)
        (fun _ => true))).blocked
      (DetectorCtx.convKey ⟨some "t", some "o", "conv1", "m1"⟩) = false := by
  exact (cleanup_releasesLock_keepsRecord ⟨some "t", some "o", "conv1", "m1"⟩ "fn"
    _ _ rfl rfl rfl).1

/-! ### Claim C5: cancellation of a pending record -/

/-- C5: cancelling a pending record marks it cancelled while preserving
its other fields, dispatches exactly one message — the fixed neutral
one — and releases the conversation lock exactly once. -/
theorem cancel_transition (ctx : DetectorCtx) (fn : String) (st : OrchState) (r : FormRecord)
    (h : st.forms (ctx.formId fn) = some r)
    (_hs : r.isSubmitted = false) (_hc : r.isCancelled = false) :
    (handleFormCancel ctx fn st).forms (ctx.formId fn) =
      some { r with isSubmitted := false, isCancelled := true } ∧
    (∀ k, k ≠ ctx.formId fn → (handleFormCancel ctx fn st).forms k = st.forms k) ∧
    (handleFormCancelTrace ctx fn).countP Action.isSend = 1 ∧
    (handleFormCancelTrace ctx fn).filter Action.isSend =
      [Action.sendMessage neutralCancelMessage] ∧
    (handleFormCancelTrace ctx fn).countP (Action.isRelease ctx.convKey) = 1 ∧
    (handleFormCancel ctx fn st).blocked ctx.convKey = false := by
  refine ⟨?_, ?_, rfl, rfl, ?_, ?_⟩
  · simp [handleFormCancel, handleFormCancelTrace, runActions, applyAction, recMarkCancelled, h]
  · intro k hk
    simp [handleFormCancel, handleFormCancelTrace, runActions, applyAction, hk]
  · simp [handleFormCancelTrace, List.countP, List.countP.go, Action.isRelease]
  · simp [handleFormCancel, handleFormCancelTrace, runActions, applyAction]

/-- A concrete pending Scenario A record. -/
def pendingRecordA : FormRecord :=
  { isSubmitted := false, isCancelled := false, toolName := "render_crawl_form",
    serverName := "srv", requestId := none, options := .obj [],
    output := scenarioAOutput, formType := "crawl", submittedData := none }

/-- A blocked state holding the pending Scenario A record. -/
def pendingStateA : OrchState :=
  ⟨fun k => if k = scenarioAFormId then some pendingRecordA else none, fun _ => true⟩

/-- Witness for C5 on a concrete pending Scenario A record. -/
theorem cancel_transition_witness :
    (handleFormCancel scenarioACtx "render_crawl_form" pendingStateA).forms
      (scenarioACtx.formId "render_crawl_form") =
      some { pendingRecordA with isSubmitted := false, isCancelled := true } ∧
    (handleFormCancelTrace scenarioACtx "render_crawl_form").filter Action.isSend =
      [Action.sendMessage neutralCancelMessage] ∧
    (handleFormCancelTrace scenarioACtx "render_crawl_form").countP
      (Action.isRelease scenarioACtx.convKey) = 1 := by
  have h := cancel_transition scenarioACtx "render_crawl_form" pendingStateA pendingRecordA
    rfl rfl rfl
  exact ⟨h.1, h.2.2.2.1, h.2.2.2.2.1⟩

/-! ### Claim C7: store update precedes message dispatch -/

/-- C7: in the submit transition, the (unique) store update marking the
record submitted occurs strictly before the (unique) dispatch of the
synthesized message, and running the handler leaves the record
submitted. -/
theorem submit_marksBeforeDispatch (env : MsgEnv) (ctx : DetectorCtx) (formType fn : String)
    (st : OrchState) (data : Js) :
    (handleFormSubmitTrace env ctx formType fn st data).countP Action.isMarkSubmitted = 1 ∧
    (handleFormSubmitTrace env ctx formType fn st data).countP Action.isSend = 1 ∧
    (handleFormSubmitTrace env ctx formType fn st data).findIdx Action.isMarkSubmitted <
      (handleFormSubmitTrace env ctx formType fn st data).findIdx Action.isSend ∧
    ((handleFormSubmit env ctx formType fn st data).forms (ctx.formId fn)).map
      FormRecord.isSubmitted = some true := by
  refine ⟨rfl, rfl, ?_, ?_⟩
  · have h1 : (handleFormSubmitTrace env ctx formType fn st data).findIdx
        Action.isMarkSubmitted = 0 := rfl
    have h2 : (handleFormSubmitTrace env ctx formType fn st data).findIdx Action.isSend = 1 := rfl
    rw [h1, h2]
    exact Nat.zero_lt_one
  · cases hr : st.forms (ctx.formId fn) with
    | none =>
      simp [handleFormSubmit, handleFormSubmitTrace, runActions, applyAction, recMarkSubmitted, hr]
    | some r =>
      simp [handleFormSubmit, handleFormSubmitTrace, runActions, applyAction, recMarkSubmitted, hr]

/-! ### Claim C8: label resolution of submitted data -/

/-- Reading back the first of two freshly spread keys. -/
theorem jsGetOpt_spread2_fst (base : Js) (k1 k2 : String) (v1 v2 : Js) (h : k1 ≠ k2) :
    jsGetOpt (jsSpread base [(k1, v1), (k2, v2)]) k1 = v1 := by
  show (jsLookup (objSet (objSet _ k1 v1) k2 v2) k1).getD .undefined = v1
  rw [jsLookup_objSet_ne _ _ _ _ h, jsLookup_objSet_self]
  rfl

/-- Reading back the second of two freshly spread keys. -/
theorem jsGetOpt_spread2_snd (base : Js) (k1 k2 : String) (v1 v2 : Js) :
    jsGetOpt (jsSpread base [(k1, v1), (k2, v2)]) k2 = v2 := by
  show (jsLookup (objSet (objSet _ k1 v1) k2 v2) k2).getD .undefined = v2
  rw [jsLookup_objSet_self]
  rfl

/-- Reading back the first of four freshly spread keys. -/
theorem jsGetOpt_spread4_fst (base : Js) (k1 k2 k3 k4 : String) (v1 v2 v3 v4 : Js)
    (h2 : k1 ≠ k2) (h3 : k1 ≠ k3) (h4 : k1 ≠ k4) :
    jsGetOpt (jsSpread base [(k1, v1), (k2, v2), (k3, v3), (k4, v4)]) k1 = v1 := by
  show (jsLookup (objSet (objSet (objSet (objSet _ k1 v1) k2 v2) k3 v3) k4 v4) k1).getD .undefined
      = v1
  rw [jsLookup_objSet_ne _ _ _ _ h4, jsLookup_objSet_ne _ _ _ _ h3,
    jsLookup_objSet_ne _ _ _ _ h2, jsLookup_objSet_self]
  rfl

/-- Outreach bundle fixture with one sender `s1`. -/
def outreachOptsCE : Js :=
  .obj [("senders", .arr [.obj [("id", .str "s1"), ("name", .str "Ann"),
          ("occupation", .str "CEO"), ("company_name", .str "Acme"),
          ("sender_group_id", .str "g1")]]),
        ("lists", .arr []), ("campaigns", .arr []), ("templates", .arr [])]

/-- Outreach submission fixture whose sender id matches no option. -/
def outreachDataCE : Js := .obj [("sender_id", .str "s9")]

/-- C8 counterexample: for the outreach form, an id-valued field with
no matching option resolves to `undefined` in
`submittedDataWithLabels`, not to the raw id string the claim
promises. -/
theorem labelFallback_counterexample :
    jsGetOpt outreachDataCE "sender_id" = .str "s9" ∧
    jsFindBy (jsGetOpt outreachOptsCE "senders") "id" (jsGetOpt outreachDataCE "sender_id") =
      .undefined ∧
    jsGetOpt (submittedDataWithLabels "outreach" outreachOptsCE outreachDataCE) "senderLabel" =
      .undefined ∧
    Js.undefined ≠ Js.str "s9" :=
  ⟨rfl, rfl, rfl, fun h => Js.noConfusion h⟩

/-- C8 amended: for the crawl form, the website and crawl-config labels
resolve to defined strings (the option's name) when a matching option
exists and fall back to the raw id (with `default` mapped to `Default
Configuration`), and these labels are stored on the submitted view; for
the outreach form, the sender label is a defined string exactly when a
matching sender exists and is `undefined` — not the raw id — when none
does. -/
theorem labelResolution_amended (opts data : Js) :
    (jsFindBy (jsGetOpt opts "websites") "id" (jsGetOpt data "website_id") = .undefined →
      crawlWebsiteLabel opts data = jsGetOpt data "website_id") ∧
    (∀ kvs, jsFindBy (jsGetOpt opts "websites") "id" (jsGetOpt data "website_id") = .obj kvs →
      crawlWebsiteLabel opts data =
        .str (jsToStr (jsGetOpt (.obj kvs) "name") ++ " (" ++
          jsToStr (jsGetOpt (.obj kvs) "url") ++ ")")) ∧
    (jsFindBy (jsGetOpt opts "crawlConfigs") "id" (jsGetOpt data "crawl_config_id") = .undefined →
      jsEq (jsGetOpt data "crawl_config_id") (.str "default") = false →
      crawlConfigLabelOf opts data = jsGetOpt data "crawl_config_id") ∧
    (jsFindBy (jsGetOpt opts "crawlConfigs") "id" (jsGetOpt data "crawl_config_id") = .undefined →
      jsEq (jsGetOpt data "crawl_config_id") (.str "default") = true →
      crawlConfigLabelOf opts data = .str "Default Configuration") ∧
    (∀ kvs, jsFindBy (jsGetOpt opts "crawlConfigs") "id" (jsGetOpt data "crawl_config_id") =
        .obj kvs →
      crawlConfigLabelOf opts data = jsGetOpt (.obj kvs) "name") ∧
    jsGetOpt (submittedDataWithLabels "crawl" opts data) "websiteLabel" =
      crawlWebsiteLabel opts data ∧
    jsGetOpt (submittedDataWithLabels "crawl" opts data) "crawlConfigLabel" =
      crawlConfigLabelOf opts data ∧
    (∀ kvs, jsFindBy (jsGetOpt opts "senders") "id" (jsGetOpt data "sender_id") = .obj kvs →
      ∃ s, jsGetOpt (submittedDataWithLabels "outreach" opts data) "senderLabel" = .str s) ∧
    (jsFindBy (jsGetOpt opts "senders") "id" (jsGetOpt data "sender_id") = .undefined →
      jsGetOpt (submittedDataWithLabels "outreach" opts data) "senderLabel" = .undefined) := by
  refine ⟨?_, ?_, ?_, ?_, ?_, ?_, ?_, ?_, ?_⟩
  · intro h
    unfold crawlWebsiteLabel
    rw [h]
    rfl
  · intro kvs h
    unfold crawlWebsiteLabel
    rw [h]
    rfl
  · intro h hd
    unfold crawlConfigLabelOf
    rw [h, hd]
    rfl
  · intro h hd
    unfold crawlConfigLabelOf
    rw [h, hd]
    rfl
  · intro kvs h
    unfold crawlConfigLabelOf
    rw [h]
    rfl
  · show jsGetOpt (jsSpread data _) "websiteLabel" = _
    exact jsGetOpt_spread2_fst _ _ _ _ _ (by decide)
  · show jsGetOpt (jsSpread data _) "crawlConfigLabel" = _
    exact jsGetOpt_spread2_snd _ _ _ _ _
  · intro kvs h
    refine ⟨jsToStr (jsGetOpt (.obj kvs) "name") ++ " (" ++
      jsToStr (jsOrElse (jsGetOpt (.obj kvs) "occupation") (.str "No title")) ++ ") at " ++
      jsToStr (jsGetOpt (.obj kvs) "company_name"), ?_⟩
    show jsGetOpt (jsSpread data _) "senderLabel" = _
    rw [jsGetOpt_spread4_fst _ _ _ _ _ _ _ _ _ (by decide) (by decide) (by decide), h]
    rfl
  · intro h
    show jsGetOpt (jsSpread data _) "senderLabel" = _
    rw [jsGetOpt_spread4_fst _ _ _ _ _ _ _ _ _ (by decide) (by decide) (by decide), h]
    rfl

/-- Witness for the amended C8 on concrete crawl and outreach
fixtures. -/
theorem labelResolution_amended_witness :
    crawlWebsiteLabel
      (.obj [("websites", .arr []), ("crawlConfigs", .arr [])])
      (.obj [("website_id", .str "w2"), ("crawl_config_id", .str "c9")]) = .str "w2" ∧
    crawlConfigLabelOf
      (.obj [("websites", .arr []), ("crawlConfigs", .arr [])])
      (.obj [("website_id", .str "w2"), ("crawl_config_id", .str "c9")]) = .str "c9" ∧
    (∃ s, jsGetOpt (submittedDataWithLabels "outreach" outreachOptsCE
      (.obj [("sender_id", .str "s1")])) "senderLabel" = .str s) ∧
    jsGetOpt (submittedDataWithLabels "outreach" outreachOptsCE outreachDataCE) "senderLabel" =
      .undefined := by
  have h1 := labelResolution_amended
    (.obj [("websites", .arr []), ("crawlConfigs", .arr [])])
    (.obj [("website_id", .str "w2"), ("crawl_config_id", .str "c9")])
  have h2 := labelResolution_amended outreachOptsCE (.obj [("sender_id", .str "s1")])
  have h3 := labelResolution_amended outreachOptsCE outreachDataCE
  exact ⟨h1.1 rfl, h1.2.2.1 rfl rfl,
    h2.2.2.2.2.2.2.2.1 [("id", .str "s1"), ("name", .str "Ann"), ("occupation", .str "CEO"),
      ("company_name", .str "Acme"), ("sender_group_id", .str "g1")] rfl,
    h3.2.2.2.2.2.2.2.2 rfl⟩

/-! ### Claim C4: extraction never throws and recovers with the empty bundle -/

/-- C4 counterexample: `email_sme_questions_form` is a configured form
type whose defined empty bundle (the one its catch block returns) is
the empty custom bundle, yet on a parse failure its extractor returns
the fixed two-field recipient/content bundle instead — with
`functionToolName` the string `"email_sme_questions_form"`, not the
empty bundle's `null` — and that bundle even passes the validity
gate. -/
theorem emailSme_fixedBundle_counterexample :
    jsGetOpt (emailSmeExtractOptions noParse "not json") "functionToolName" =
      .str "email_sme_questions_form" ∧
    jsGetOpt emptyCustomBundle "functionToolName" = .null ∧
    emailSmeExtractOptions noParse "not json" ≠ emptyCustomBundle ∧
    hasValidOptions (emailSmeExtractOptions noParse "not json") = true := by
  refine ⟨rfl, rfl, ?_, rfl⟩
  intro h
  have h2 := congrArg (fun b => jsGetOpt b "functionToolName") h
  have h3 : Js.str "email_sme_questions_form" = Js.null := h2
  exact Js.noConfusion h3

/-- C4 amended: every configured form type's extraction function
returns a bundle for every input string (totality is the Lean function
type; every throwing sub-step runs inside the modelled try/catch).
When `JSON.parse` fails on the raw output, the six JSON-driven form
types — crawl, add-crawl-config, outreach, site-keyword,
keyword-cluster and (when the NOTE-stripped trimmed text also fails to
parse) custom — return exactly their defined empty bundles;
`email_sme_questions_form` instead returns its fixed two-field
recipient/content bundle, with the content recovered by the regex
fallback (empty when no fenced markdown block exists), never its
defined empty bundle. -/
theorem extractOptions_emptyBundle_onParseFailure (parse : String → Option Js) (out : String)
    (h1 : parse out = none) (h2 : parse ((stripNote out).trim) = none) :
    crawlExtractOptions parse out = emptyCrawlBundle ∧
    addCrawlConfigExtractOptions parse out = emptyAddCrawlConfigBundle ∧
    customExtractOptions parse out = emptyCustomBundle ∧
    outreachExtractOptions parse out = emptyOutreachBundle ∧
    siteKeywordExtractOptions parse out = emptySiteKeywordBundle ∧
    keywordClusterExtractOptions parse out = emptyKeywordClusterBundle ∧
    emailSmeExtractOptions parse out =
      .obj [("formFields", .arr [
          .obj [("label", .str "Recipient Email"), ("type", .str "email"),
                ("id", .str "recipient_email"), ("default", .str "")],
          .obj [("label", .str "Email Content"), ("type", .str "textarea"),
                ("id", .str "email_content"),
                ("default", .str ((markdownFallback out).getD "")),
                ("rows", .num 15)]]),
        ("requestId", .null),
        ("functionToolName", .str "email_sme_questions_form"),
        ("submitInstructions", .str "After you submit this form, the brevo_send_email tool will be used to send the email content to the recipient you specified.")] := by
  refine ⟨?_, ?_, ?_, ?_, ?_, ?_, ?_⟩
  · unfold crawlExtractOptions crawlExtractCore textContentUnwrap
    rw [h1]
    rfl
  · unfold addCrawlConfigExtractOptions addCrawlConfigUnwrap
    rw [h1]
    rfl
  · have hcp : customParsedData parse out = .error () := by
      unfold customParsedData
      rw [h1]
      show (match parse ((stripNote out).trim) with
        | some v => Except.ok v
        | none => Except.error ()) = Except.error ()
      rw [h2]
    unfold customExtractOptions customExtractCore
    rw [hcp]
    rfl
  · unfold outreachExtractOptions outreachExtractCore textContentUnwrap
    rw [h1]
    rfl
  · unfold siteKeywordExtractOptions siteKeywordExtractCore textContentUnwrap
    rw [h1]
    rfl
  · unfold keywordClusterExtractOptions textContentUnwrap
    rw [h1]
    rfl
  · unfold emailSmeExtractOptions emailSmeContent
    rw [h1]

/-- Witness for the amended C4 on an unparseable output. -/
theorem extractOptions_emptyBundle_onParseFailure_witness :
    crawlExtractOptions noParse "not json" = emptyCrawlBundle ∧
    addCrawlConfigExtractOptions noParse "not json" = emptyAddCrawlConfigBundle ∧
    customExtractOptions noParse "not json" = emptyCustomBundle ∧
    outreachExtractOptions noParse "not json" = emptyOutreachBundle ∧
    siteKeywordExtractOptions noParse "not json" = emptySiteKeywordBundle ∧
    keywordClusterExtractOptions noParse "not json" = emptyKeywordClusterBundle ∧
    emailSmeExtractOptions noParse "not json" =
      .obj [("formFields", .arr [
          .obj [("label", .str "Recipient Email"), ("type", .str "email"),
                ("id", .str "recipient_email"), ("default", .str "")],
          .obj [("label", .str "Email Content"), ("type", .str "textarea"),
                ("id", .str "email_content"),
                ("default", .str ((markdownFallback "not json").getD "")),
                ("rows", .num 15)]]),
        ("requestId", .null),
        ("functionToolName", .str "email_sme_questions_form"),
        ("submitInstructions", .str "After you submit this form, the brevo_send_email tool will be used to send the email content to the recipient you specified.")] :=
  extractOptions_emptyBundle_onParseFailure noParse "not json" rfl rfl

/-! ### Claim C6: two-phase upload compensation -/

/-- C6: when the create phase succeeds with a truthy id and upload URL
but the `PUT` upload fails, the submit run issues the compensating
delete for the created id strictly before surfacing the failure through
`onSubmit`; the run is independent of the delete call's own outcome;
and the message later synthesized from the surfaced payload carries the
`Failed` status line. -/
theorem uploadCompensation (env : UploadEnv) (nm desc server fileName : String)
    (cr ur : FetchResp) (result configData cid : Js) (menv : MsgEnv)
    (record : Option FormRecord)
    (hnm : nm ≠ "")
    (hcr : env.createResp = .ok cr) (hok : cr.ok = true)
    (hparse : env.parse cr.body = some result)
    (hcd : configDataResolve env.parse result = .ok configData)
    (hid : configData.get "id" = .ok cid) (hcidT : cid.truthy = true)
    (hurl : (jsOrElse (jsGetOpt configData "upload_url") (jsGetOpt configData "uploadUrl")).truthy
      = true)
    (hup : env.uploadResp = .ok ur) (hupok : ur.ok = false) :
    ∃ msg,
      addCrawlConfigSubmit env nm desc server fileName true =
        [ .createCall ("create_crawl_config_mcp_" ++ server) nm desc,
          .putUpload (jsToStr (jsOrElse (jsGetOpt configData "upload_url")
            (jsGetOpt configData "uploadUrl"))),
          .deleteCall ("delete_crawl_config_mcp_" ++ server) cid,
          .submitted (uploadPayload nm desc fileName (.obj [("error", .str msg)])) ] ∧
      msg ≠ "" ∧
      (∀ d, addCrawlConfigSubmit { env with deleteResp := d } nm desc server fileName true =
        addCrawlConfigSubmit env nm desc server fileName true) ∧
      synthMessage menv "add_crawl_config" record
          (uploadPayload nm desc fileName (.obj [("error", .str msg)])) =
        "I have created the crawl configuration:\n\n📝 **Name:** " ++ nm ++
          "\n📄 **File:** " ++ jsToStr (jsOrElse (.str fileName) (.str "config file")) ++
          "\n💬 **Description:** " ++ jsToStr (jsOrElse (.str desc) (.str "Not specified")) ++
          ("\n\n❌ **Status:** Failed\n⚠️ **Error:** " ++ msg) := by
  have hmsgne : ∀ t : String, ("Upload failed: " ++ toString ur.status ++ " - " ++ t) ≠ "" := by
    intro t h
    have hlen := congrArg String.length h
    rw [String.length_append, String.length_append, String.length_append] at hlen
    have h15 : ("Upload failed: " : String).length = 15 := rfl
    rw [h15] at hlen
    simp at hlen
  refine ⟨"Upload failed: " ++ toString ur.status ++ " - " ++
    (match env.uploadBodyText with
      | .ok t => t
      | .error _ => "Unable to read error response"), ?_, hmsgne _, ?_, ?_⟩
  · unfold addCrawlConfigSubmit
    simp [hcr, hparse, hcd, hid, hup, hnm, hok, hurl, hupok, hcidT, uploadCatch]
  · intro d
    rfl
  · have htr : (Js.str ("Upload failed: " ++ toString ur.status ++ " - " ++
        (match env.uploadBodyText with
          | .ok t => t
          | .error _ => "Unable to read error response"))).truthy = true := by
      simp only [Js.truthy, decide_eq_true_eq]
      exact hmsgne _
    have hres : addCrawlConfigResultInfo menv.parse
        (uploadPayload nm desc fileName (.obj [("error", .str ("Upload failed: " ++
          toString ur.status ++ " - " ++
          (match env.uploadBodyText with
            | .ok t => t
            | .error _ => "Unable to read error response")))])) =
        "\n\n❌ **Status:** Failed\n⚠️ **Error:** " ++ ("Upload failed: " ++
          toString ur.status ++ " - " ++
          (match env.uploadBodyText with
            | .ok t => t
            | .error _ => "Unable to read error response")) := by
      show (if (Js.str ("Upload failed: " ++ toString ur.status ++ " - " ++
          (match env.uploadBodyText with
            | .ok t => t
            | .error _ => "Unable to read error response"))).truthy = true then
          "\n\n❌ **Status:** Failed\n⚠️ **Error:** " ++ ("Upload failed: " ++
            toString ur.status ++ " - " ++
            (match env.uploadBodyText with
              | .ok t => t
              | .error _ => "Unable to read error response"))
        else "") = _
      rw [htr]
      simp
    unfold synthMessage
    rw [if_neg (by decide), if_pos rfl]
    unfold addCrawlConfigMessage
    rw [hres]
    rfl

/-- Scenario E create-response body. -/
def uploadBodyCE : String := "\x7b\"id\":\"cfg1\",\"upload_url\":\"https://x\"\x7d"

/-- Scenario E parsed create response. -/
def uploadResultCE : Js := .obj [("id", .str "cfg1"), ("upload_url", .str "https://x")]

/-- A `JSON.parse` defined exactly on the Scenario E body. -/
def uploadParseCE : String → Option Js := fun s =>
  if s = uploadBodyCE then some uploadResultCE else none

/-- Scenario E environment: create succeeds with
`\x7bid: "cfg1", upload_url: "https://x"\x7d`, the `PUT` returns
HTTP 500. -/
def uploadEnvCE : UploadEnv :=
  { parse := uploadParseCE,
    createResp := .ok ⟨true, 200, uploadBodyCE⟩,
    uploadResp := .ok ⟨false, 500, "boom"⟩,
    uploadBodyText := .ok "boom",
    deleteResp := .ok ⟨true, 200, ""⟩ }

/-- A concrete synthesis environment for the witness. -/
def menvCE : MsgEnv := ⟨noParse, fun _ => "", fun _ => "", fun _ => ""⟩

/-- Witness for C6 at Scenario E. -/
theorem uploadCompensation_witness :
    ∃ msg,
      addCrawlConfigSubmit uploadEnvCE "KW" "d" "srv" "f.seospiderconfig" true =
        [ .createCall ("create_crawl_config_mcp_" ++ "srv") "KW" "d",
          .putUpload (jsToStr (jsOrElse (jsGetOpt uploadResultCE "upload_url")
            (jsGetOpt uploadResultCE "uploadUrl"))),
          .deleteCall ("delete_crawl_config_mcp_" ++ "srv") (.str "cfg1"),
          .submitted (uploadPayload "KW" "d" "f.seospiderconfig"
            (.obj [("error", .str msg)])) ] ∧
      msg ≠ "" ∧
      (∀ d, addCrawlConfigSubmit { uploadEnvCE with deleteResp := d }
          "KW" "d" "srv" "f.seospiderconfig" true =
        addCrawlConfigSubmit uploadEnvCE "KW" "d" "srv" "f.seospiderconfig" true) ∧
      synthMessage menvCE "add_crawl_config" none
          (uploadPayload "KW" "d" "f.seospiderconfig" (.obj [("error", .str msg)])) =
        "I have created the crawl configuration:\n\n📝 **Name:** " ++ "KW" ++
          "\n📄 **File:** " ++ jsToStr (jsOrElse (.str "f.seospiderconfig") (.str "config file")) ++
          "\n💬 **Description:** " ++ jsToStr (jsOrElse (.str "d") (.str "Not specified")) ++
          ("\n\n❌ **Status:** Failed\n⚠️ **Error:** " ++ msg) :=
  uploadCompensation uploadEnvCE "KW" "d" "srv" "f.seospiderconfig"
    ⟨true, 200, uploadBodyCE⟩ ⟨false, 500, "boom"⟩ uploadResultCE uploadResultCE (.str "cfg1")
    menvCE none (by decide) rfl rfl rfl rfl rfl rfl rfl rfl rfl

end MCPForms
